import Mathlib

/-!
# Verification of the MQTTOTA chunked firmware-update core

Shallow embedding of `src/MQTTOTA.cpp` / `src/src/MQTTOTA.h` (the MQTTOTA
Arduino/ESP32 library).  Arduino `String` payloads are modelled as `List Nat`
(byte values); driver results (`esp_ota_get_next_update_partition`,
`esp_ota_begin`, `esp_ota_write`, `esp_ota_end`, `esp_ota_set_boot_partition`),
the free-heap reading and the `millis()` clock are supplied through an `Env`
record, one per inbound call.  Externally visible actions (driver calls,
telemetry callbacks and MQTT publishes, `ESP.restart()`) are collected in an
event list.
-/

set_option maxHeartbeats 1600000
set_option maxRecDepth 100000

namespace MQTTOTA

/-- The `MQTT_OTA_TIMEOUT_MS` (MQTTOTA.h line 32): 7 minutes. -/
def MQTT_OTA_TIMEOUT_MS : Nat := 420000

/-- The `MQTT_OTA_BUFFSIZE` (MQTTOTA.h line 24). -/
def MQTT_OTA_BUFFSIZE : Nat := 1024

/-- The `MQTT_OTA_MAX_CHUNK_SIZE` (MQTTOTA.h line 40): 64 KB per chunk. -/
def MQTT_OTA_MAX_CHUNK_SIZE : Nat := 65536

/-- The `MQTT_OTA_MAX_RETRIES` (MQTTOTA.h line 48). -/
def MQTT_OTA_MAX_RETRIES : Int := 3

/-- The `sizeof(esp_image_header_t)` on ESP32: 24 bytes. -/
def espImageHeaderSize : Nat := 24

/-- The `sizeof(esp_image_segment_header_t)` on ESP32: 8 bytes. -/
def espImageSegmentHeaderSize : Nat := 8

/-- The `sizeof(esp_app_desc_t)` on ESP32: 256 bytes. -/
def espAppDescSize : Nat := 256

/-- The `enum OTAState` (MQTTOTA.h lines 62-72). -/
inductive OTAState
  | idle
  | receiving
  | decoding
  | validating
  | writing
  | completing
  | success
  | error
  | aborted
deriving DecidableEq

/-! ## Base64 codec

The library calls into libb64 (`base64_decode_block` / `base64_encode_block`),
which the spec treats as an external collaborator.  Modelled from the spec
(§4.A): standard base64 alphabet, the streaming decoder ignores every byte
outside the alphabet (padding `=` included), the encoder emits 4 alphabet
bytes per 3 input bytes plus `=` padding.  The wrapper functions
`base64Decode` / `base64Encode` (MQTTOTA.cpp lines 9-67) are from the source.
-/

/-- Map a 6-bit value to its base64 alphabet byte. -/
def base64EncodeValue (v : Nat) : Nat :=
  if v < 26 then 65 + v
  else if v < 52 then 97 + (v - 26)
  else if v < 62 then 48 + (v - 52)
  else if v = 62 then 43
  else 47

/-- Map a byte to its 6-bit base64 value; `none` for bytes outside the
alphabet (the streaming decoder skips those, `=` and newlines included). -/
def base64DecodeValue (c : Nat) : Option Nat :=
  if 65 ≤ c ∧ c ≤ 90 then some (c - 65)
  else if 97 ≤ c ∧ c ≤ 122 then some (c - 97 + 26)
  else if 48 ≤ c ∧ c ≤ 57 then some (c - 48 + 52)
  else if c = 43 then some 62
  else if c = 47 then some 63
  else none

/-- Six-bit values produced by the encoder for a byte string, 4 per group of 3,
with the short trailing group handled as libb64 does (2 values for 1 byte,
3 values for 2 bytes), before padding. -/
def encVals : List Nat → List Nat
  | a :: b :: c :: rest =>
      (a / 4) :: ((a % 4) * 16 + b / 16) :: ((b % 16) * 4 + c / 64) :: (c % 64) :: encVals rest
  | [a, b] => [a / 4, (a % 4) * 16 + b / 16, (b % 16) * 4]
  | [a] => [a / 4, (a % 4) * 16]
  | [] => []

/-- Byte string recovered from a stream of 6-bit values: 3 bytes per group of
4, a trailing group of 2 or 3 values yields 1 or 2 bytes, a lone value none. -/
def decVals : List Nat → List Nat
  | v0 :: v1 :: v2 :: v3 :: rest =>
      (v0 * 4 + v1 / 16) :: ((v1 % 16) * 16 + v2 / 4) :: ((v2 % 4) * 64 + v3) :: decVals rest
  | [v0, v1, v2] => [v0 * 4 + v1 / 16, (v1 % 16) * 16 + v2 / 4]
  | [v0, v1] => [v0 * 4 + v1 / 16]
  | _ => []

/-- libb64 `base64_decode_block`: decode every alphabet byte, skipping the
rest.  Modelled from the spec (§4.A, external collaborator). -/
def base64_decode_block (encoded : List Nat) : List Nat :=
  decVals (encoded.filterMap base64DecodeValue)

/-- The `MQTTOTA::base64Decode` (MQTTOTA.cpp lines 9-45).  The low-heap branch
only logs and yields; the `count > 0` check returns the empty string either
way, so both are semantically transparent here.  The size ceiling is from the
source: `maxDecodedSize = encodedLength * 3 / 4 + 2`, rejected above 50000. -/
def base64Decode (encoded : List Nat) : List Nat :=
  let maxDecodedSize := encoded.length * 3 / 4 + 2
  if maxDecodedSize > 50000 then []
  else base64_decode_block encoded

/-- The `MQTTOTA::base64Encode` (MQTTOTA.cpp lines 47-67): empty input maps to
the empty string, otherwise libb64 encoding with `=` padding (byte 61). -/
def base64Encode (input : List Nat) : List Nat :=
  if input.isEmpty then []
  else (encVals input).map base64EncodeValue ++ List.replicate ((3 - input.length % 3) % 3) 61

/-! ## Data model -/

/-- The `struct OTAContext` (MQTTOTA.h lines 181-196).  `update_handle = 0` is the
null handle, `update_partition = none` the NULL pointer.  The `partitionName`
string is never read and omitted. -/
structure OTAContext where
  inProgress : Bool
  firmwareVersion : String
  currentPart : Int
  totalParts : Int
  startTime : Nat
  receivedSize : Nat
  update_handle : Nat
  update_partition : Option Nat
  state : OTAState
  retryCount : Int
  maxRetries : Int
  rollbackEnabled : Bool
  versionCheckEnabled : Bool
deriving DecidableEq

/-- The member variables of `class MQTTOTA` that the modelled operations
read or write (MQTTOTA.h lines 209-236). -/
structure Device where
  otaTopic : String
  chunkedOTAEnabled : Bool
  chunkSize : Nat
  firmwareVersionBegin : String
  otaInProgress : Bool
  otaStartTime : Nat
  currentFirmwareVersion : String
  currentProgress : Int
  ctx : OTAContext
deriving DecidableEq

/-- Context as the constructor (MQTTOTA.cpp lines 70-81) plus the in-class
initializers of MQTTOTA.h leave it. -/
def initialContext : OTAContext :=
  { inProgress := false
    firmwareVersion := ""
    currentPart := 0
    totalParts := 0
    startTime := 0
    receivedSize := 0
    update_handle := 0
    update_partition := none
    state := OTAState.idle
    retryCount := 0
    maxRetries := MQTT_OTA_MAX_RETRIES
    rollbackEnabled := true
    versionCheckEnabled := true }

/-- Freshly constructed device (constructor plus in-class initializers;
`otaTopic` as set by `setMQTTConfig`'s default argument `"ota"`). -/
def initialDevice : Device :=
  { otaTopic := "ota"
    chunkedOTAEnabled := true
    chunkSize := MQTT_OTA_BUFFSIZE
    firmwareVersionBegin := ""
    otaInProgress := false
    otaStartTime := 0
    currentFirmwareVersion := ""
    currentProgress := 0
    ctx := initialContext }

/-- The `struct OTAChunkData` fields read by the chunked path
(MQTTOTA.h lines 198-207, populated at MQTTOTA.cpp lines 240-248). -/
structure OTAChunkData where
  firmwareVersion : String
  base64Part : List Nat
  partIndex : Int
  totalParts : Int
  isError : Bool
  errorMessage : String
deriving DecidableEq

/-- The `Details` object of a parsed inbound JSON message: `Base64` feeds the
monolithic path, `Base64Part`/`PartIndex`/`TotalParts` the chunked path. -/
structure MsgDetails where
  firmwareVersion : String
  base64Data : List Nat
  base64Part : List Nat
  partIndex : Int
  totalParts : Int
  isError : Bool
  errorMessage : String
deriving DecidableEq

/-- An inbound message after JSON parsing: `malformed` covers a JSON error, a
wrong `EventType` and a missing `Details` object, which the source drops
alike (MQTTOTA.cpp lines 226-238). -/
inductive OTAMessage
  | malformed
  | update (details : MsgDetails)
deriving DecidableEq

/-- Externally visible actions of one call: ESP-IDF OTA driver calls,
telemetry (user callback and MQTT publish), and the reboot request. -/
inductive Ev
  | otaBegin (p : Nat)
  | otaWrite (h : Nat) (data : List Nat)
  | otaEnd (h : Nat)
  | otaSetBoot (p : Nat)
  | otaAbort (h : Nat)
  | progressCb (p : Int) (version : String)
  | mqttProgress (p : Int) (version : String)
  | errorEv (msg : String) (version : String)
  | successEv (version : String)
  | stateEv (s : OTAState)
  | restart
deriving DecidableEq

/-- Driver results and ambient readings one inbound call runs against. -/
structure Env where
  freeHeap : Nat
  now : Nat
  nextUpdatePartition : Option Nat
  beginHandle : Option Nat
  writeOk : Bool
  endOk : Bool
  endValidateFailed : Bool
  setBootOk : Bool
  errName : String
deriving DecidableEq

/-! ## Telemetry (MQTTOTA.cpp lines 567-629, 817-846)

The error/success/state callbacks and their MQTT publishes are modelled as a
single event each (the transport is taken as connected; callbacks fire
regardless).  `_publishProgress` always fires the callback but publishes on
MQTT only at multiples of 10 and at 100. -/

/-- The `MQTTOTA::_publishError`: an empty version argument is replaced by the
device-wide `_firmwareVersion`. -/
def publishError (d : Device) (msg version : String) : List Ev :=
  [Ev.errorEv msg (if version = "" then d.firmwareVersionBegin else version)]

/-- The `MQTTOTA::_publishSuccess`. -/
def publishSuccess (version : String) : List Ev :=
  [Ev.successEv version]

/-- The `MQTTOTA::_publishProgress`: records `_currentProgress`, fires the
callback, publishes on MQTT when `progress % 10 == 0 || progress == 100`. -/
def publishProgress (d : Device) (p : Int) (version : String) : Device × List Ev :=
  ({ d with currentProgress := p },
   Ev.progressCb p version ::
     (if p % 10 = 0 ∨ p = 100 then [Ev.mqttProgress p version] else []))

/-- The `MQTTOTA::_setState` (MQTTOTA.cpp lines 841-846): writes the state field
and emits a state-change event only when the state actually changes. -/
def setState (d : Device) (s : OTAState) : Device × List Ev :=
  if d.ctx.state ≠ s then
    ({ d with ctx := { d.ctx with state := s } }, [Ev.stateEv s])
  else (d, [])

/-! ## Session lifecycle -/

/-- The `MQTTOTA::cleanup` (MQTTOTA.cpp lines 632-637): resets the monolithic
session flags. -/
def cleanup (d : Device) : Device :=
  { d with otaInProgress := false, currentProgress := 0, otaStartTime := 0,
           currentFirmwareVersion := "" }

/-- The `MQTTOTA::_cleanupChunkedOTA` (MQTTOTA.cpp lines 425-438): aborts the
writer handle when a session with a live handle exists, then resets the
chunked session record (the `state` field is not touched). -/
def cleanupChunkedOTA (c : OTAContext) : OTAContext × List Ev :=
  ({ c with inProgress := false, currentPart := 0, totalParts := 0,
            receivedSize := 0, startTime := 0, update_handle := 0,
            update_partition := none },
   if c.inProgress = true ∧ c.update_handle ≠ 0 then [Ev.otaAbort c.update_handle] else [])

/-- The `MQTTOTA::_processImageHeader` (MQTTOTA.cpp lines 658-669): only a length
check against the three platform header structures; the app descriptor is
copied out and logged but not validated further. -/
def processImageHeader (data : List Nat) : Bool :=
  if data.length < espImageHeaderSize + espImageSegmentHeaderSize + espAppDescSize then false
  else true

/-- The `MQTTOTA::isUpdateInProgress` (MQTTOTA.h lines 277-279). -/
def isUpdateInProgress (d : Device) : Bool :=
  d.otaInProgress || d.ctx.inProgress

/-- The `MQTTOTA::_startChunkedOTA` (MQTTOTA.cpp lines 305-334).  The partition
lookup result is stored before the NULL check, as in the source; on
`esp_ota_begin` success the context is armed and progress 0 published. -/
def startChunkedOTA (d : Device) (env : Env) (ch : OTAChunkData) : Device × List Ev × Bool :=
  match env.nextUpdatePartition with
  | none =>
      ({ d with ctx := { d.ctx with update_partition := none } },
       publishError d "No se pudo encontrar partición OTA" ch.firmwareVersion, false)
  | some p =>
      let d1 := { d with ctx := { d.ctx with update_partition := some p } }
      match env.beginHandle with
      | none =>
          (d1, Ev.otaBegin p ::
                 publishError d1 ("Error iniciando OTA: " ++ env.errName) ch.firmwareVersion,
           false)
      | some h =>
          let d2 := { d1 with
            ctx := { d1.ctx with
                      update_handle := h
                      inProgress := true
                      firmwareVersion := ch.firmwareVersion
                      currentPart := 0
                      totalParts := ch.totalParts
                      startTime := env.now
                      receivedSize := 0 } }
          let r := publishProgress d2 0 ch.firmwareVersion
          (r.1, Ev.otaBegin p :: r.2, true)

/-- The `MQTTOTA::_processChunkData` (MQTTOTA.cpp lines 337-377): decode, header
check on part 1 (cleaning up the session itself on failure), write, account
the received bytes. -/
def processChunkData (d : Device) (env : Env) (ch : OTAChunkData) : Device × List Ev × Bool :=
  if d.ctx.inProgress = false ∨ d.ctx.update_handle = 0 then
    (d, publishError d "OTA no iniciada correctamente" ch.firmwareVersion, false)
  else
    let decodedData := base64Decode ch.base64Part
    if decodedData.length = 0 then
      (d, publishError d "Error decodificando chunk Base64" ch.firmwareVersion, false)
    else if ch.partIndex = 1 ∧ processImageHeader decodedData = false then
      let r := cleanupChunkedOTA d.ctx
      ({ d with ctx := r.1 },
       publishError d "Encabezado de imagen inválido en primer chunk" ch.firmwareVersion ++ r.2,
       false)
    else if env.writeOk = false then
      (d, Ev.otaWrite d.ctx.update_handle decodedData ::
            publishError d ("Error escribiendo chunk OTA: " ++ env.errName) ch.firmwareVersion,
       false)
    else
      ({ d with ctx := { d.ctx with receivedSize := d.ctx.receivedSize + decodedData.length } },
       [Ev.otaWrite d.ctx.update_handle decodedData], true)

/-- The `MQTTOTA::_completeChunkedOTA` (MQTTOTA.cpp lines 380-422): minimum-size
guard (`receivedSize < 1000`), then `esp_ota_end`, `esp_ota_set_boot_partition`
and reboot, publishing 90/95/100 at the three finalize substeps. -/
def completeChunkedOTA (d : Device) (env : Env) (ch : OTAChunkData) : Device × List Ev :=
  if d.ctx.receivedSize < 1000 then
    let r := cleanupChunkedOTA d.ctx
    ({ d with ctx := r.1 },
     publishError d "Firmware demasiado pequeño" ch.firmwareVersion ++ r.2)
  else
    let p90 := publishProgress d 90 ch.firmwareVersion
    let d1 := p90.1
    let endEv := Ev.otaEnd d1.ctx.update_handle
    if env.endOk = false then
      let msg := "Error finalizando OTA: " ++ env.errName ++
                 (if env.endValidateFailed = true then " - Validación de imagen falló" else "")
      let r := cleanupChunkedOTA d1.ctx
      ({ d1 with ctx := r.1 },
       p90.2 ++ [endEv] ++ publishError d1 msg ch.firmwareVersion ++ r.2)
    else
      let p95 := publishProgress d1 95 ch.firmwareVersion
      let d2 := p95.1
      let bootEv := Ev.otaSetBoot (d2.ctx.update_partition.getD 0)
      if env.setBootOk = false then
        let r := cleanupChunkedOTA d2.ctx
        ({ d2 with ctx := r.1 },
         p90.2 ++ [endEv] ++ p95.2 ++ [bootEv] ++
           publishError d2 ("Error estableciendo partición de arranque: " ++ env.errName)
             ch.firmwareVersion ++ r.2)
      else
        let p100 := publishProgress d2 100 ch.firmwareVersion
        (p100.1,
         p90.2 ++ [endEv] ++ p95.2 ++ [bootEv] ++ p100.2 ++
           publishSuccess ch.firmwareVersion ++ [Ev.restart])

/-- Commit of an accepted chunk (MQTTOTA.cpp lines 290-296):
`_otaContext.currentPart = chunk.partIndex`, the progress computation
`(chunk.partIndex * 100) / chunk.totalParts` written to `_currentProgress`,
and the progress publication. -/
def chunkProgress (d2 : Device) (ch : OTAChunkData) : Device × List Ev :=
  publishProgress
    { d2 with
        ctx := { d2.ctx with currentPart := ch.partIndex },
        currentProgress := ch.partIndex * 100 / ch.totalParts }
    (ch.partIndex * 100 / ch.totalParts) ch.firmwareVersion

/-- The tail of `MQTTOTA::_processOTAChunk` after the part-1 special handling
(MQTTOTA.cpp lines 275-302): the strict `currentPart + 1` sequence check, the
chunk data processing (cleaning up on failure), the accepted-chunk commit
`chunkProgress`, and completion on the declared last part. -/
def processOTAChunkSeq (d1 : Device) (env : Env) (ch : OTAChunkData) : Device × List Ev :=
  if d1.ctx.inProgress = false ∨ ch.partIndex ≠ d1.ctx.currentPart + 1 then
    ({ d1 with ctx := (cleanupChunkedOTA d1.ctx).1 },
     publishError d1 "Chunk fuera de secuencia" ch.firmwareVersion ++
       (cleanupChunkedOTA d1.ctx).2)
  else
    match processChunkData d1 env ch with
    | (d2, evs2, false) =>
        ({ d2 with ctx := (cleanupChunkedOTA d2.ctx).1 },
         evs2 ++ (cleanupChunkedOTA d2.ctx).2)
    | (d2, evs2, true) =>
        if ch.partIndex = ch.totalParts then
          ((completeChunkedOTA (chunkProgress d2 ch).1 env ch).1,
           evs2 ++ (chunkProgress d2 ch).2 ++
             (completeChunkedOTA (chunkProgress d2 ch).1 env ch).2)
        else ((chunkProgress d2 ch).1, evs2 ++ (chunkProgress d2 ch).2)

/-- The `MQTTOTA::_processOTAChunk` (MQTTOTA.cpp lines 222-302): error chunks and
incomplete chunks clean up, part 1 starts a session when idle and is dropped
when one is live, then the sequence-check-onward tail `processOTAChunkSeq`. -/
def processOTAChunk (d : Device) (env : Env) (m : OTAMessage) : Device × List Ev :=
  match m with
  | OTAMessage.malformed => (d, [])
  | OTAMessage.update det =>
      let ch : OTAChunkData :=
        { firmwareVersion := det.firmwareVersion, base64Part := det.base64Part,
          partIndex := det.partIndex, totalParts := det.totalParts,
          isError := det.isError, errorMessage := det.errorMessage }
      if ch.isError = true then
        ({ d with ctx := (cleanupChunkedOTA d.ctx).1 },
         publishError d ch.errorMessage ch.firmwareVersion ++ (cleanupChunkedOTA d.ctx).2)
      else if ch.base64Part.isEmpty = true ∨ ch.firmwareVersion = "" then
        ({ d with ctx := (cleanupChunkedOTA d.ctx).1 },
         publishError d "Chunk OTA incompleto" ch.firmwareVersion ++
           (cleanupChunkedOTA d.ctx).2)
      else if ch.partIndex = 1 then
        if d.ctx.inProgress = true then (d, [])
        else
          match startChunkedOTA d env ch with
          | (d1, evs1, false) => (d1, evs1)
          | (d1, evs1, true) =>
              ((processOTAChunkSeq d1 env ch).1, evs1 ++ (processOTAChunkSeq d1 env ch).2)
      else processOTAChunkSeq d env ch

/-! ## Monolithic (single-message) path (MQTTOTA.cpp lines 170-219, 441-564) -/

/-- A byte accepted by `_validateFirmwareData`'s character loop:
`isalnum(c) || c == '+' || c == '/' || c == '=' || c == '\n' || c == '\r'`. -/
def isValidB64Char (c : Nat) : Bool :=
  (48 ≤ c ∧ c ≤ 57) ∨ (65 ≤ c ∧ c ≤ 90) ∨ (97 ≤ c ∧ c ≤ 122) ∨
    c = 43 ∨ c = 47 ∨ c = 61 ∨ c = 10 ∨ c = 13

/-- The `MQTTOTA::_validateFirmwareData` (MQTTOTA.cpp lines 544-564). -/
def validateFirmwareData (d : Device) (base64Data : List Nat) : List Ev × Bool :=
  if base64Data.isEmpty = true then
    (publishError d "Datos de firmware vacíos" "", false)
  else if base64Data.length < 100 then
    (publishError d "Datos de firmware demasiado cortos" "", false)
  else if base64Data.all isValidB64Char = false then
    (publishError d "Formato Base64 inválido" "", false)
  else ([], true)

/-- The write loop of `_performOTAUpdateESPIDF` (MQTTOTA.cpp lines 485-517):
fixed-size slices, header check on the first slice, abort-and-fail on a write
error, progress 25..75 published at multiples of 10 percent.  The source
hoists `chunk_size` before the loop; a zero `chunk_size` would keep the C++
loop at `i = 0` forever and is modelled as a failed update. -/
def performWriteLoop (env : Env) (h : Nat) (chunkSize : Nat) (data : List Nat)
    (version : String) (d : Device) (i : Nat) : Device × List Ev × Bool :=
  if i < data.length then
    if chunkSize = 0 then (d, [], false)
    else
      let cur := min chunkSize (data.length - i)
      if i = 0 ∧ processImageHeader (data.take cur) = false then
        (d, Ev.otaAbort h :: publishError d "Encabezado de imagen inválido" version, false)
      else if env.writeOk = false then
        (d, Ev.otaWrite h ((data.drop i).take cur) :: Ev.otaAbort h ::
              publishError d ("Error escribiendo OTA: " ++ env.errName) version,
         false)
      else
        let progressRaw : Int := 25 + (((i + cur) * 50 / data.length : Nat) : Int)
        let progress : Int := if progressRaw > 75 then 75 else progressRaw
        let pr := if ((i + cur) * 100 / data.length) % 10 = 0
                  then publishProgress d progress version else (d, [])
        let rest := performWriteLoop env h chunkSize data version pr.1 (i + cur)
        (rest.1, Ev.otaWrite h ((data.drop i).take cur) :: (pr.2 ++ rest.2.1), rest.2.2)
  else (d, [], true)
termination_by data.length - i
decreasing_by
  omega

/-- The `MQTTOTA::_performOTAUpdateESPIDF` (MQTTOTA.cpp lines 446-541). -/
def performOTAUpdateESPIDF (d : Device) (env : Env) (base64Data : List Nat)
    (version : String) : Device × List Ev × Bool :=
  if env.freeHeap < 50000 then
    (d, publishError d "Memoria insuficiente para OTA" version, false)
  else
    let decodedData := base64Decode base64Data
    if decodedData.length = 0 then
      (d, publishError d "Error decodificando Base64" version, false)
    else
      match env.nextUpdatePartition with
      | none => (d, publishError d "No se pudo encontrar partición OTA" version, false)
      | some p =>
          match env.beginHandle with
          | none =>
              (d, Ev.otaBegin p ::
                    publishError d ("Error iniciando OTA: " ++ env.errName) version,
               false)
          | some h =>
              let p25 := publishProgress d 25 version
              let wl := performWriteLoop env h p25.1.chunkSize decodedData version p25.1 0
              if wl.2.2 = false then
                (wl.1, Ev.otaBegin p :: p25.2 ++ wl.2.1, false)
              else
                let p75 := publishProgress wl.1 75 version
                if env.endOk = false then
                  (p75.1,
                   Ev.otaBegin p :: p25.2 ++ wl.2.1 ++ p75.2 ++ [Ev.otaEnd h] ++
                     publishError p75.1 ("Error finalizando OTA: " ++ env.errName) version,
                   false)
                else if env.setBootOk = false then
                  (p75.1,
                   Ev.otaBegin p :: p25.2 ++ wl.2.1 ++ p75.2 ++
                     [Ev.otaEnd h, Ev.otaSetBoot p] ++
                     publishError p75.1
                       ("Error estableciendo partición de arranque: " ++ env.errName) version,
                   false)
                else
                  let p100 := publishProgress p75.1 100 version
                  (p100.1,
                   Ev.otaBegin p :: p25.2 ++ wl.2.1 ++ p75.2 ++
                     [Ev.otaEnd h, Ev.otaSetBoot p] ++ p100.2,
                   true)

/-- The `MQTTOTA::_processOTAMessage` (MQTTOTA.cpp lines 170-219): the monolithic
path; on success it publishes success and requests a reboot, on failure it
clears `_otaInProgress` and runs `cleanup()`. -/
def processOTAMessage (d : Device) (env : Env) (m : OTAMessage) : Device × List Ev :=
  match m with
  | OTAMessage.malformed => (d, [])
  | OTAMessage.update det =>
      if det.firmwareVersion = "" ∨ det.base64Data.isEmpty = true then (d, [])
      else
        let v := validateFirmwareData d det.base64Data
        if v.2 = false then (d, v.1)
        else
          let d1 := { d with otaInProgress := true, otaStartTime := env.now,
                             currentFirmwareVersion := det.firmwareVersion }
          let p10 := publishProgress d1 10 det.firmwareVersion
          let u := performOTAUpdateESPIDF p10.1 env det.base64Data det.firmwareVersion
          if u.2.2 = true then
            (u.1, p10.2 ++ u.2.1 ++ publishSuccess det.firmwareVersion ++ [Ev.restart])
          else
            (cleanup { u.1 with otaInProgress := false }, p10.2 ++ u.2.1)

/-! ## Public entry points -/

/-- The `MQTTOTA::processMessage` (MQTTOTA.cpp lines 147-167): topic gate, the
`isUpdateInProgress()` gate, the 30000-byte free-heap gate, then the chunked
or monolithic handler. -/
def processMessage (d : Device) (env : Env) (topic : String) (m : OTAMessage) :
    Device × List Ev :=
  if topic ≠ d.otaTopic then (d, [])
  else if isUpdateInProgress d = true then (d, [])
  else if env.freeHeap < 30000 then (d, [])
  else if d.chunkedOTAEnabled = true then processOTAChunk d env m
  else processOTAMessage d env m

/-- The `millis() - start` in 32-bit unsigned arithmetic. -/
def u32sub (a b : Nat) : Nat :=
  (a % 2 ^ 32 + (2 ^ 32 - b % 2 ^ 32)) % 2 ^ 32

/-- The second block of `MQTTOTA::handle` (MQTTOTA.cpp lines 139-143): the
chunked-session timeout check. -/
def handleChunkTimeout (d1 : Device) (env : Env) : Device × List Ev :=
  if d1.ctx.inProgress = true ∧ u32sub env.now d1.ctx.startTime > MQTT_OTA_TIMEOUT_MS then
    ({ d1 with ctx := (cleanupChunkedOTA d1.ctx).1 },
     publishError d1 "Timeout en OTA por chunks" d1.ctx.firmwareVersion ++
       (cleanupChunkedOTA d1.ctx).2)
  else (d1, [])

/-- The `MQTTOTA::handle` (MQTTOTA.cpp lines 131-144): the periodic tick; checks
the monolithic session and then the chunked session against
`MQTT_OTA_TIMEOUT_MS`. -/
def handle (d : Device) (env : Env) : Device × List Ev :=
  if d.otaInProgress = true ∧ u32sub env.now d.otaStartTime > MQTT_OTA_TIMEOUT_MS then
    ((handleChunkTimeout (cleanup d) env).1,
     publishError d "Timeout en actualización OTA" d.currentFirmwareVersion ++
       (handleChunkTimeout (cleanup d) env).2)
  else handleChunkTimeout d env

/-- The `MQTTOTA::abortUpdate` (MQTTOTA.cpp lines 739-747): when a session is
active, publish the abort error, clean up both session records, and set the
state to `OTA_STATE_ABORTED`; otherwise do nothing. -/
def abortUpdate (d : Device) : Device × List Ev :=
  if isUpdateInProgress d = true then
    ((setState (cleanup { d with ctx := (cleanupChunkedOTA d.ctx).1 }) OTAState.aborted).1,
     publishError d "Actualización abortada por usuario" d.currentFirmwareVersion ++
       (cleanupChunkedOTA d.ctx).2 ++
       (setState (cleanup { d with ctx := (cleanupChunkedOTA d.ctx).1 })
         OTAState.aborted).2)
  else (d, [])

/-- The `MQTTOTA::setChunkSize` (MQTTOTA.h lines 305-307): an in-range request is
stored, anything else (zero or above `MQTT_OTA_MAX_CHUNK_SIZE`) resets the
chunk size to `MQTT_OTA_BUFFSIZE`. -/
def setChunkSize (d : Device) (chunkSize : Nat) : Device :=
  { d with chunkSize :=
      if chunkSize > 0 ∧ chunkSize ≤ MQTT_OTA_MAX_CHUNK_SIZE then chunkSize
      else MQTT_OTA_BUFFSIZE }

/-- The `MQTTOTA::getCurrentState` (MQTTOTA.cpp lines 675-677). -/
def getCurrentState (d : Device) : OTAState := d.ctx.state

/-- The `MQTTOTA::isValidating` (MQTTOTA.h lines 281-283). -/
def isValidating (d : Device) : Bool := decide (d.ctx.state = OTAState.validating)

/-- The `MQTTOTA::isWriting` (MQTTOTA.h lines 285-287). -/
def isWriting (d : Device) : Bool := decide (d.ctx.state = OTAState.writing)

/-! ## Drivers for whole-run statements -/

/-- One external stimulus: an MQTT message through `processMessage`, a chunk
message handed to the session handler `_processOTAChunk`, a periodic
`handle()` tick, or an `abortUpdate()` call. -/
inductive Act
  | msg (topic : String) (m : OTAMessage)
  | chunk (m : OTAMessage)
  | tick
  | abortU
deriving DecidableEq

/-- Dispatch one stimulus against one environment. -/
def step (d : Device) (env : Env) : Act → Device × List Ev
  | Act.msg topic m => processMessage d env topic m
  | Act.chunk m => processOTAChunk d env m
  | Act.tick => handle d env
  | Act.abortU => abortUpdate d

/-- Run a list of stimuli, collecting all events in order. -/
def run (d : Device) : List (Env × Act) → Device × List Ev
  | [] => (d, [])
  | (env, a) :: rest =>
      let r1 := step d env a
      let r2 := run r1.1 rest
      (r2.1, r1.2 ++ r2.2)

/-- Is an event an `esp_ota_abort` call? -/
def isAbortEv : Ev → Bool
  | Ev.otaAbort _ => true
  | _ => false

/-- Number of `esp_ota_abort` calls in an event list. -/
def countAborts (evs : List Ev) : Nat := (evs.filter isAbortEv).length

/-- Is an event a state-change emission (`_publishStateChange`)? -/
def isStateEv : Ev → Bool
  | Ev.stateEv _ => true
  | _ => false

/-- Is an event an error emission (`_publishError`)? -/
def isErrorEv : Ev → Bool
  | Ev.errorEv _ _ => true
  | _ => false

/-- The progress values delivered to the user progress callback, in order. -/
def progressCbValues (evs : List Ev) : List Int :=
  evs.filterMap fun e => match e with
    | Ev.progressCb p _ => some p
    | _ => none

/-! ## Base64 lemmas -/

theorem base64DecodeValue_encodeValue :
    ∀ v < 64, base64DecodeValue (base64EncodeValue v) = some v := by decide

theorem base64DecodeValue_pad : base64DecodeValue 61 = none := by decide

theorem encVals_lt (x : List Nat) (hx : ∀ b ∈ x, b < 256) :
    ∀ v ∈ encVals x, v < 64 := by
  induction x using encVals.induct with
  | case1 a b c rest ih =>
      have ha := hx a (by simp)
      have hb := hx b (by simp)
      have hc := hx c (by simp)
      intro v hv
      simp only [encVals, List.mem_cons] at hv
      rcases hv with h | h | h | h | h
      · omega
      · omega
      · omega
      · omega
      · exact ih (fun b hb => hx b (by simp [hb])) v h
  | case2 a b =>
      have ha := hx a (by simp)
      have hb := hx b (by simp)
      intro v hv
      simp only [encVals, List.mem_cons, List.not_mem_nil, or_false] at hv
      rcases hv with h | h | h <;> omega
  | case3 a =>
      have ha := hx a (by simp)
      intro v hv
      simp only [encVals, List.mem_cons, List.not_mem_nil, or_false] at hv
      rcases hv with h | h <;> omega
  | case4 => intro v hv; simp [encVals] at hv

theorem filterMap_decode_map_encode (vs : List Nat) (h : ∀ v ∈ vs, v < 64) :
    (vs.map base64EncodeValue).filterMap base64DecodeValue = vs := by
  induction vs with
  | nil => rfl
  | cons v vs ih =>
      have hv := h v (by simp)
      simp only [List.map_cons, List.filterMap_cons,
        base64DecodeValue_encodeValue v hv]
      exact congrArg _ (ih fun w hw => h w (by simp [hw]))

theorem filterMap_decode_replicate_pad (n : Nat) :
    (List.replicate n 61).filterMap base64DecodeValue = [] := by
  induction n with
  | zero => rfl
  | succ n ih => simp [List.replicate_succ, List.filterMap_cons, base64DecodeValue_pad, ih]

theorem decVals_encVals (x : List Nat) (hx : ∀ b ∈ x, b < 256) :
    decVals (encVals x) = x := by
  induction x using encVals.induct with
  | case1 a b c rest ih =>
      have ha := hx a (by simp)
      have hb := hx b (by simp)
      have hc := hx c (by simp)
      have h1 : a / 4 * 4 + ((a % 4) * 16 + b / 16) / 16 = a := by omega
      have h2 : ((a % 4) * 16 + b / 16) % 16 * 16 + ((b % 16) * 4 + c / 64) / 4 = b := by omega
      have h3 : ((b % 16) * 4 + c / 64) % 4 * 64 + c % 64 = c := by omega
      simp only [encVals, decVals, h1, h2, h3]
      exact congrArg _ (congrArg _ (congrArg _ (ih fun b hb => hx b (by simp [hb]))))
  | case2 a b =>
      have ha := hx a (by simp)
      have hb := hx b (by simp)
      have h1 : a / 4 * 4 + ((a % 4) * 16 + b / 16) / 16 = a := by omega
      have h2 : ((a % 4) * 16 + b / 16) % 16 * 16 + (b % 16) * 4 / 4 = b := by omega
      simp only [encVals, decVals, h1, h2]
  | case3 a =>
      have ha := hx a (by simp)
      have h1 : a / 4 * 4 + (a % 4) * 16 / 16 = a := by omega
      simp only [encVals, decVals, h1]
  | case4 => rfl

theorem encVals_length (x : List Nat) :
    (encVals x).length = (4 * x.length + 2) / 3 := by
  induction x using encVals.induct with
  | case1 a b c rest ih =>
      simp only [encVals, List.length_cons, ih]
      omega
  | case2 a b => simp [encVals]
  | case3 a => simp [encVals]
  | case4 => rfl

theorem base64Encode_length (x : List Nat) :
    (base64Encode x).length = 4 * ((x.length + 2) / 3) := by
  by_cases h0 : x.isEmpty = true
  · rw [List.isEmpty_iff] at h0
    subst h0
    rfl
  · have hf : x.isEmpty = false := by simpa using h0
    have hx0 : x.length ≠ 0 := by
      intro h
      rw [List.length_eq_zero] at h
      subst h
      simp at hf
    simp only [base64Encode, hf, Bool.false_eq_true, if_false, List.length_append,
      List.length_map, List.length_replicate, encVals_length]
    omega

theorem base64_decode_block_encode (x : List Nat) (hx : ∀ b ∈ x, b < 256) :
    base64_decode_block (base64Encode x) = x := by
  by_cases h0 : x.isEmpty = true
  · rw [List.isEmpty_iff] at h0
    subst h0
    rfl
  · have hf : x.isEmpty = false := by simpa using h0
    simp only [base64Encode, hf, Bool.false_eq_true, if_false, base64_decode_block,
      List.filterMap_append, filterMap_decode_replicate_pad, List.append_nil,
      filterMap_decode_map_encode _ (encVals_lt x hx)]
    exact decVals_encVals x hx

theorem base64Decode_encode (x : List Nat) (hx : ∀ b ∈ x, b < 256)
    (hn : x.length ≤ 49998) : base64Decode (base64Encode x) = x := by
  have hlen := base64Encode_length x
  have hno : ¬ (base64Encode x).length * 3 / 4 + 2 > 50000 := by
    rw [hlen]
    omega
  simp only [base64Decode, hno, if_false]
  exact base64_decode_block_encode x hx

theorem base64Decode_encode_nil_of_big (x : List Nat) (hn : 49999 ≤ x.length) :
    base64Decode (base64Encode x) = [] := by
  have hlen := base64Encode_length x
  have hyes : (base64Encode x).length * 3 / 4 + 2 > 50000 := by
    rw [hlen]
    omega
  simp only [base64Decode, hyes, if_true]

/-! ## Concrete inputs used by the claim theorems -/

/-- An environment where the heap is ample, the clock reads 0, and every
driver call succeeds (partition 1, handle 1). -/
def happyEnv : Env :=
  { freeHeap := 100000, now := 0, nextUpdatePartition := some 1, beginHandle := some 1,
    writeOk := true, endOk := true, endValidateFailed := false, setBootOk := true,
    errName := "ESP_FAIL" }

/-- A base64 payload that decodes to 400 bytes (enough for the 288-byte
image-header prefix). -/
def payload400 : List Nat := base64Encode (List.replicate 400 65)

/-- A chunk message of the happy-path session: version `"1.0.1"`, the 400-byte
payload, the given part index and total. -/
def chunkDet (i t : Int) : MsgDetails :=
  { firmwareVersion := "1.0.1", base64Data := [], base64Part := payload400,
    partIndex := i, totalParts := t, isError := false, errorMessage := "" }

/-- A live chunked session: part 1 of 3 committed, 400 bytes received on
handle 1 targeting partition 1; exactly the state `_startChunkedOTA` plus one
accepted chunk leaves behind. -/
def liveCtx : OTAContext :=
  { initialContext with
     inProgress := true
     firmwareVersion := "1.0.1"
     currentPart := 1
     totalParts := 3
     receivedSize := 400
     update_handle := 1
     update_partition := some 1 }

/-- A device holding the live session `liveCtx`. -/
def liveDevice : Device := { initialDevice with ctx := liveCtx }

/-- The spec's happy-path session: parts 1, 2, 3 with `total_parts = 3`, each
decoding to 400 bytes, delivered on the configured topic `"ota"` through
`processMessage`, with ample heap and an all-success driver. -/
def c1session : List (Env × Act) :=
  [(happyEnv, Act.msg "ota" (OTAMessage.update (chunkDet 1 3))),
   (happyEnv, Act.msg "ota" (OTAMessage.update (chunkDet 2 3))),
   (happyEnv, Act.msg "ota" (OTAMessage.update (chunkDet 3 3)))]

/-- The result of delivering the happy-path session. -/
def c1run : Device × List Ev := run initialDevice c1session

/-- Does an event belong to the successful-completion family
(`esp_ota_end`, `esp_ota_set_boot_partition`, success, reboot)? -/
def isCompletionEv : Ev → Bool
  | Ev.otaEnd _ => true
  | Ev.otaSetBoot _ => true
  | Ev.successEv _ => true
  | Ev.restart => true
  | _ => false

/-! ## Structural lemmas about the session operations -/

theorem publishError_filter_abort (d : Device) (m v : String) :
    (publishError d m v).filter isAbortEv = [] := by
  simp [publishError, isAbortEv]

theorem publishError_filter_state (d : Device) (m v : String) :
    (publishError d m v).filter isStateEv = [] := by
  simp [publishError, isStateEv]

theorem publishError_filter_error (d : Device) (m v : String) :
    (publishError d m v).filter isErrorEv =
      [Ev.errorEv m (if v = "" then d.firmwareVersionBegin else v)] := by
  simp [publishError, isErrorEv]

theorem publishProgress_ctx (d : Device) (p : Int) (v : String) :
    (publishProgress d p v).1.ctx = d.ctx := rfl

theorem publishProgress_filter_abort (d : Device) (p : Int) (v : String) :
    ((publishProgress d p v).2).filter isAbortEv = [] := by
  simp only [publishProgress]
  split_ifs <;> simp [isAbortEv]

theorem publishProgress_filter_state (d : Device) (p : Int) (v : String) :
    ((publishProgress d p v).2).filter isStateEv = [] := by
  simp only [publishProgress]
  split_ifs <;> simp [isStateEv]

theorem publishProgress_filter_error (d : Device) (p : Int) (v : String) :
    ((publishProgress d p v).2).filter isErrorEv = [] := by
  simp only [publishProgress]
  split_ifs <;> simp [isErrorEv]

theorem cleanupChunkedOTA_fst (c : OTAContext) :
    (cleanupChunkedOTA c).1.inProgress = false ∧
    (cleanupChunkedOTA c).1.update_handle = 0 ∧
    (cleanupChunkedOTA c).1.update_partition = none ∧
    (cleanupChunkedOTA c).1.currentPart = 0 ∧
    (cleanupChunkedOTA c).1.state = c.state := by
  exact ⟨rfl, rfl, rfl, rfl, rfl⟩

theorem cleanupChunkedOTA_filter_abort (c : OTAContext) :
    ((cleanupChunkedOTA c).2).filter isAbortEv =
      if c.inProgress = true ∧ c.update_handle ≠ 0 then [Ev.otaAbort c.update_handle]
      else [] := by
  simp only [cleanupChunkedOTA]
  split_ifs <;> simp [isAbortEv]

theorem cleanupChunkedOTA_filter_state (c : OTAContext) :
    ((cleanupChunkedOTA c).2).filter isStateEv = [] := by
  simp only [cleanupChunkedOTA]
  split_ifs <;> simp [isStateEv]

theorem cleanupChunkedOTA_filter_error (c : OTAContext) :
    ((cleanupChunkedOTA c).2).filter isErrorEv = [] := by
  simp only [cleanupChunkedOTA]
  split_ifs <;> simp [isErrorEv]

/-- A chunked session record holding its idle values. -/
def SessionReset (c : OTAContext) : Prop :=
  c.inProgress = false ∧ c.update_handle = 0 ∧ c.update_partition = none ∧ c.currentPart = 0

theorem cleanupChunkedOTA_reset (c : OTAContext) : SessionReset (cleanupChunkedOTA c).1 :=
  ⟨rfl, rfl, rfl, rfl⟩

/-- The `_startChunkedOTA` either fails leaving the session flags and handle
untouched, or succeeds arming the session; it never aborts nor changes the
state field. -/
theorem startChunkedOTA_cases (d : Device) (env : Env) (ch : OTAChunkData) :
    ((startChunkedOTA d env ch).2.2 = false ∧
     (startChunkedOTA d env ch).1.ctx.inProgress = d.ctx.inProgress ∧
     (startChunkedOTA d env ch).1.ctx.update_handle = d.ctx.update_handle ∧
     (startChunkedOTA d env ch).1.ctx.state = d.ctx.state ∧
     (startChunkedOTA d env ch).2.1.filter isAbortEv = [] ∧
     (startChunkedOTA d env ch).2.1.filter isStateEv = []) ∨
    ((startChunkedOTA d env ch).2.2 = true ∧
     (startChunkedOTA d env ch).1.ctx.inProgress = true ∧
     (startChunkedOTA d env ch).1.ctx.currentPart = 0 ∧
     (startChunkedOTA d env ch).1.ctx.state = d.ctx.state ∧
     (startChunkedOTA d env ch).2.1.filter isAbortEv = [] ∧
     (startChunkedOTA d env ch).2.1.filter isStateEv = []) := by
  rcases hp : env.nextUpdatePartition with _ | p
  · left
    simp [startChunkedOTA, hp, publishError_filter_abort, publishError_filter_state]
  · rcases hb : env.beginHandle with _ | h
    · left
      simp [startChunkedOTA, hp, hb, List.filter_cons, isAbortEv, isStateEv,
        publishError_filter_abort, publishError_filter_state]
    · right
      simp [startChunkedOTA, hp, hb, publishProgress_ctx, List.filter_cons,
        isAbortEv, isStateEv, publishProgress_filter_abort, publishProgress_filter_state]

/-- The `_processChunkData` either fails without touching the device, fails after
cleaning up the session itself (the bad-header path on part 1), or succeeds
having only added the decoded bytes to `receivedSize`. -/
theorem processChunkData_cases (d : Device) (env : Env) (ch : OTAChunkData) :
    ((processChunkData d env ch).1 = d ∧
     (processChunkData d env ch).2.1.filter isAbortEv = [] ∧
     (processChunkData d env ch).2.1.filter isStateEv = [] ∧
     (processChunkData d env ch).2.2 = false) ∨
    ((processChunkData d env ch).1.ctx = (cleanupChunkedOTA d.ctx).1 ∧
     (processChunkData d env ch).2.1.filter isAbortEv =
       ((cleanupChunkedOTA d.ctx).2).filter isAbortEv ∧
     (processChunkData d env ch).2.1.filter isStateEv = [] ∧
     (processChunkData d env ch).2.2 = false) ∨
    ((processChunkData d env ch).2.2 = true ∧
     (processChunkData d env ch).1.ctx.inProgress = d.ctx.inProgress ∧
     (processChunkData d env ch).1.ctx.update_handle = d.ctx.update_handle ∧
     (processChunkData d env ch).1.ctx.state = d.ctx.state ∧
     (processChunkData d env ch).2.1.filter isAbortEv = [] ∧
     (processChunkData d env ch).2.1.filter isStateEv = []) := by
  simp only [processChunkData]
  split_ifs with h1 h2 h3 h4
  · left
    simp [publishError_filter_abort, publishError_filter_state]
  · left
    simp [publishError_filter_abort, publishError_filter_state]
  · right; left
    refine ⟨rfl, ?_, ?_, rfl⟩
    · simp only [List.filter_append, publishError_filter_abort]
      simp
    · simp only [List.filter_append, publishError_filter_state,
        cleanupChunkedOTA_filter_state]
      simp
  · left
    simp [List.filter_cons, isAbortEv, isStateEv, publishError_filter_abort,
      publishError_filter_state]
  · right; right
    simp [List.filter_cons, isAbortEv, isStateEv]

/-- The `_completeChunkedOTA` either succeeds leaving the session record exactly
as it found it, or fails cleaning up the session record; it never changes the
state field. -/
theorem completeChunkedOTA_cases (d : Device) (env : Env) (ch : OTAChunkData) :
    ((completeChunkedOTA d env ch).1.ctx = d.ctx ∧
     (completeChunkedOTA d env ch).2.filter isAbortEv = [] ∧
     (completeChunkedOTA d env ch).2.filter isStateEv = []) ∨
    ((completeChunkedOTA d env ch).1.ctx = (cleanupChunkedOTA d.ctx).1 ∧
     (completeChunkedOTA d env ch).2.filter isAbortEv =
       ((cleanupChunkedOTA d.ctx).2).filter isAbortEv ∧
     (completeChunkedOTA d env ch).2.filter isStateEv = []) := by
  simp only [completeChunkedOTA, publishProgress_ctx]
  split_ifs with h1 h2 hv h3
  case pos =>
    right
    refine ⟨?_, ?_, ?_⟩
    · rfl
    · simp only [List.filter_append, publishError_filter_abort]
      simp
    · simp only [List.filter_append, publishError_filter_state,
        cleanupChunkedOTA_filter_state]
      simp
  all_goals first
  | (left
     refine ⟨?_, ?_, ?_⟩
     · rfl
     · simp only [List.filter_append, publishProgress_filter_abort]
       simp [isAbortEv, publishSuccess]
     · simp only [List.filter_append, publishProgress_filter_state]
       simp [isStateEv, publishSuccess])
  | (right
     refine ⟨?_, ?_, ?_⟩
     · rfl
     · simp only [List.filter_append, publishError_filter_abort,
         publishProgress_filter_abort]
       simp [isAbortEv]
     · simp only [List.filter_append, publishError_filter_state,
         publishProgress_filter_state, cleanupChunkedOTA_filter_state]
       simp [isStateEv])

theorem setState_filter_abort (d : Device) (s : OTAState) :
    ((setState d s).2).filter isAbortEv = [] := by
  simp only [setState]
  split_ifs <;> simp [isAbortEv]

theorem chunkProgress_ctx (d2 : Device) (ch : OTAChunkData) :
    (chunkProgress d2 ch).1.ctx = { d2.ctx with currentPart := ch.partIndex } := rfl

theorem chunkProgress_filter_abort (d2 : Device) (ch : OTAChunkData) :
    ((chunkProgress d2 ch).2).filter isAbortEv = [] :=
  publishProgress_filter_abort _ _ _

theorem chunkProgress_filter_state (d2 : Device) (ch : OTAChunkData) :
    ((chunkProgress d2 ch).2).filter isStateEv = [] :=
  publishProgress_filter_state _ _ _

/-- The sequence-check-onward tail never writes the `state` field and never
emits a state-change event. -/
theorem processOTAChunkSeq_state (d1 : Device) (env : Env) (ch : OTAChunkData) :
    (processOTAChunkSeq d1 env ch).1.ctx.state = d1.ctx.state ∧
    (processOTAChunkSeq d1 env ch).2.filter isStateEv = [] := by
  rw [processOTAChunkSeq]
  by_cases hseq : d1.ctx.inProgress = false ∨ ch.partIndex ≠ d1.ctx.currentPart + 1
  · rw [if_pos hseq]
    refine ⟨(cleanupChunkedOTA_fst d1.ctx).2.2.2.2, ?_⟩
    rw [List.filter_append, publishError_filter_state, cleanupChunkedOTA_filter_state]
    rfl
  · rw [if_neg hseq]
    have hcases := processChunkData_cases d1 env ch
    split
    next d2 evs2 heq =>
      rw [heq] at hcases
      simp only at hcases
      rcases hcases with ⟨hd, _, hst, _⟩ | ⟨hd, _, hst, _⟩ | ⟨hfalse, _⟩
      · refine ⟨?_, ?_⟩
        · show (cleanupChunkedOTA d2.ctx).1.state = d1.ctx.state
          rw [(cleanupChunkedOTA_fst d2.ctx).2.2.2.2, hd]
        · show (evs2 ++ (cleanupChunkedOTA d2.ctx).2).filter isStateEv = []
          rw [List.filter_append, hst, cleanupChunkedOTA_filter_state]
          rfl
      · refine ⟨?_, ?_⟩
        · show (cleanupChunkedOTA d2.ctx).1.state = d1.ctx.state
          rw [(cleanupChunkedOTA_fst d2.ctx).2.2.2.2, hd,
            (cleanupChunkedOTA_fst d1.ctx).2.2.2.2]
        · show (evs2 ++ (cleanupChunkedOTA d2.ctx).2).filter isStateEv = []
          rw [List.filter_append, hst, cleanupChunkedOTA_filter_state]
          rfl
      · exact absurd hfalse (by simp)
    next d2 evs2 heq =>
      rw [heq] at hcases
      simp only at hcases
      rcases hcases with ⟨_, _, _, hfalse⟩ | ⟨_, _, _, hfalse⟩ |
        ⟨_, hip2, hh2, hst2, habf, hstf⟩
      · exact absurd hfalse (by simp)
      · exact absurd hfalse (by simp)
      · by_cases hlast : ch.partIndex = ch.totalParts
        · rw [if_pos hlast]
          rcases completeChunkedOTA_cases (chunkProgress d2 ch).1 env ch with
            ⟨hc1, _, hc3⟩ | ⟨hc1, _, hc3⟩
          · refine ⟨?_, ?_⟩
            · rw [hc1, chunkProgress_ctx]
              exact hst2
            · rw [List.filter_append, List.filter_append, hstf,
                chunkProgress_filter_state, hc3]
              rfl
          · refine ⟨?_, ?_⟩
            · rw [hc1, (cleanupChunkedOTA_fst _).2.2.2.2, chunkProgress_ctx]
              exact hst2
            · rw [List.filter_append, List.filter_append, hstf,
                chunkProgress_filter_state, hc3]
              rfl
        · rw [if_neg hlast]
          refine ⟨?_, ?_⟩
          · rw [chunkProgress_ctx]
            exact hst2
          · rw [List.filter_append, hstf, chunkProgress_filter_state]
            rfl

/-- The sequence-check-onward tail either leaves the session flags and the
abort log untouched, or resets the session record having emitted exactly the
cleanup aborts of the entry context. -/
theorem processOTAChunkSeq_aborts (d1 : Device) (env : Env) (ch : OTAChunkData) :
    ((processOTAChunkSeq d1 env ch).2.filter isAbortEv = [] ∧
     (processOTAChunkSeq d1 env ch).1.ctx.inProgress = d1.ctx.inProgress ∧
     (processOTAChunkSeq d1 env ch).1.ctx.update_handle = d1.ctx.update_handle) ∨
    ((processOTAChunkSeq d1 env ch).2.filter isAbortEv =
       ((cleanupChunkedOTA d1.ctx).2).filter isAbortEv ∧
     SessionReset (processOTAChunkSeq d1 env ch).1.ctx) := by
  rw [processOTAChunkSeq]
  by_cases hseq : d1.ctx.inProgress = false ∨ ch.partIndex ≠ d1.ctx.currentPart + 1
  · rw [if_pos hseq]
    right
    refine ⟨?_, cleanupChunkedOTA_reset d1.ctx⟩
    rw [List.filter_append, publishError_filter_abort]
    rfl
  · rw [if_neg hseq]
    have hcases := processChunkData_cases d1 env ch
    split
    next d2 evs2 heq =>
      rw [heq] at hcases
      simp only at hcases
      rcases hcases with ⟨hd, hab, _, _⟩ | ⟨hd, hab, _, _⟩ | ⟨hfalse, _⟩
      · right
        refine ⟨?_, cleanupChunkedOTA_reset d2.ctx⟩
        show (evs2 ++ (cleanupChunkedOTA d2.ctx).2).filter isAbortEv = _
        rw [List.filter_append, hab, hd]
        rfl
      · right
        refine ⟨?_, cleanupChunkedOTA_reset d2.ctx⟩
        show (evs2 ++ (cleanupChunkedOTA d2.ctx).2).filter isAbortEv = _
        rw [List.filter_append, hab, cleanupChunkedOTA_filter_abort d2.ctx, hd]
        rw [(cleanupChunkedOTA_fst d1.ctx).1]
        simp
      · exact absurd hfalse (by simp)
    next d2 evs2 heq =>
      rw [heq] at hcases
      simp only at hcases
      rcases hcases with ⟨_, _, _, hfalse⟩ | ⟨_, _, _, hfalse⟩ |
        ⟨_, hip2, hh2, _, habf, _⟩
      · exact absurd hfalse (by simp)
      · exact absurd hfalse (by simp)
      · by_cases hlast : ch.partIndex = ch.totalParts
        · rw [if_pos hlast]
          rcases completeChunkedOTA_cases (chunkProgress d2 ch).1 env ch with
            ⟨hc1, hc2, _⟩ | ⟨hc1, hc2, _⟩
          · left
            refine ⟨?_, ?_, ?_⟩
            · rw [List.filter_append, List.filter_append, habf,
                chunkProgress_filter_abort, hc2]
              rfl
            · rw [hc1, chunkProgress_ctx]
              exact hip2
            · rw [hc1, chunkProgress_ctx]
              exact hh2
          · right
            refine ⟨?_, ?_⟩
            · rw [List.filter_append, List.filter_append, habf,
                chunkProgress_filter_abort, hc2]
              rw [cleanupChunkedOTA_filter_abort, cleanupChunkedOTA_filter_abort,
                chunkProgress_ctx]
              simp only [hip2, hh2]
              rfl
            · rw [hc1]
              exact cleanupChunkedOTA_reset _
        · rw [if_neg hlast]
          left
          refine ⟨?_, ?_, ?_⟩
          · rw [List.filter_append, habf, chunkProgress_filter_abort]
            rfl
          · rw [chunkProgress_ctx]
            exact hip2
          · rw [chunkProgress_ctx]
            exact hh2

/-- The `_processOTAChunk` never writes the `state` field and never emits a
state-change event, whatever the message and the driver results. -/
theorem processOTAChunk_state (d : Device) (env : Env) (m : OTAMessage) :
    (processOTAChunk d env m).1.ctx.state = d.ctx.state ∧
    (processOTAChunk d env m).2.filter isStateEv = [] := by
  rcases m with _ | det
  · exact ⟨rfl, rfl⟩
  · simp only [processOTAChunk]
    split_ifs with he hemp hk1 hip
    · refine ⟨(cleanupChunkedOTA_fst d.ctx).2.2.2.2, ?_⟩
      rw [List.filter_append, publishError_filter_state, cleanupChunkedOTA_filter_state]
      rfl
    · refine ⟨(cleanupChunkedOTA_fst d.ctx).2.2.2.2, ?_⟩
      rw [List.filter_append, publishError_filter_state, cleanupChunkedOTA_filter_state]
      rfl
    · exact ⟨rfl, rfl⟩
    · have hsc := startChunkedOTA_cases d env
        { firmwareVersion := det.firmwareVersion, base64Part := det.base64Part,
          partIndex := det.partIndex, totalParts := det.totalParts,
          isError := det.isError, errorMessage := det.errorMessage }
      split
      next d1 evs1 heq =>
        rw [heq] at hsc
        simp only at hsc
        rcases hsc with ⟨_, _, _, hstate, _, hfst⟩ | ⟨hfalse, _⟩
        · exact ⟨hstate, hfst⟩
        · exact absurd hfalse (by simp)
      next d1 evs1 heq =>
        rw [heq] at hsc
        simp only at hsc
        rcases hsc with ⟨hfalse, _⟩ | ⟨_, _, _, hstate, _, hfst⟩
        · exact absurd hfalse (by simp)
        · have hseq := processOTAChunkSeq_state d1 env
            { firmwareVersion := det.firmwareVersion, base64Part := det.base64Part,
              partIndex := det.partIndex, totalParts := det.totalParts,
              isError := det.isError, errorMessage := det.errorMessage }
          refine ⟨?_, ?_⟩
          · show (processOTAChunkSeq d1 env _).1.ctx.state = d.ctx.state
            rw [hseq.1, hstate]
          · show (evs1 ++ (processOTAChunkSeq d1 env _).2).filter isStateEv = []
            rw [List.filter_append, hfst, hseq.2]
            rfl
    · exact processOTAChunkSeq_state d env _

/-- Abort behaviour of `_processOTAChunk`: either no abort happens and the
session flags are untouched, or the live session is cleaned up emitting
exactly its own abort, or (only from an idle session) a freshly started
session fails emitting one abort on the fresh handle. -/
theorem processOTAChunk_aborts (d : Device) (env : Env) (m : OTAMessage) :
    ((processOTAChunk d env m).2.filter isAbortEv = [] ∧
     (processOTAChunk d env m).1.ctx.inProgress = d.ctx.inProgress ∧
     (processOTAChunk d env m).1.ctx.update_handle = d.ctx.update_handle) ∨
    ((processOTAChunk d env m).2.filter isAbortEv =
       ((cleanupChunkedOTA d.ctx).2).filter isAbortEv ∧
     SessionReset (processOTAChunk d env m).1.ctx) ∨
    (d.ctx.inProgress = false ∧ (processOTAChunk d env m).2.filter isAbortEv = []) ∨
    (d.ctx.inProgress = false ∧ SessionReset (processOTAChunk d env m).1.ctx ∧
     ∃ hh, (processOTAChunk d env m).2.filter isAbortEv = [Ev.otaAbort hh]) := by
  rcases m with _ | det
  · exact Or.inl ⟨rfl, rfl, rfl⟩
  · simp only [processOTAChunk]
    split_ifs with he hemp hk1 hip
    · right; left
      refine ⟨?_, cleanupChunkedOTA_reset d.ctx⟩
      rw [List.filter_append, publishError_filter_abort]
      rfl
    · right; left
      refine ⟨?_, cleanupChunkedOTA_reset d.ctx⟩
      rw [List.filter_append, publishError_filter_abort]
      rfl
    · exact Or.inl ⟨rfl, rfl, rfl⟩
    · have hnip : d.ctx.inProgress = false := by
        revert hip
        cases d.ctx.inProgress <;> simp
      have hsc := startChunkedOTA_cases d env
        { firmwareVersion := det.firmwareVersion, base64Part := det.base64Part,
          partIndex := det.partIndex, totalParts := det.totalParts,
          isError := det.isError, errorMessage := det.errorMessage }
      split
      next d1 evs1 heq =>
        rw [heq] at hsc
        simp only at hsc
        rcases hsc with ⟨_, _, _, _, habt, _⟩ | ⟨hfalse, _⟩
        · exact Or.inr (Or.inr (Or.inl ⟨hnip, habt⟩))
        · exact absurd hfalse (by simp)
      next d1 evs1 heq =>
        rw [heq] at hsc
        simp only at hsc
        rcases hsc with ⟨hfalse, _⟩ | ⟨_, _, _, _, habt, _⟩
        · exact absurd hfalse (by simp)
        · rcases processOTAChunkSeq_aborts d1 env
            { firmwareVersion := det.firmwareVersion, base64Part := det.base64Part,
              partIndex := det.partIndex, totalParts := det.totalParts,
              isError := det.isError, errorMessage := det.errorMessage } with
            ⟨hs1, _, _⟩ | ⟨hs1, hs2⟩
          · right; right; left
            refine ⟨hnip, ?_⟩
            show (evs1 ++ (processOTAChunkSeq d1 env _).2).filter isAbortEv = []
            rw [List.filter_append, habt, hs1]
            rfl
          · by_cases hcnd : d1.ctx.inProgress = true ∧ d1.ctx.update_handle ≠ 0
            · right; right; right
              refine ⟨hnip, ?_, d1.ctx.update_handle, ?_⟩
              · exact hs2
              · show (evs1 ++ (processOTAChunkSeq d1 env _).2).filter isAbortEv = _
                rw [List.filter_append, habt, hs1, cleanupChunkedOTA_filter_abort,
                  if_pos hcnd]
                rfl
            · right; right; left
              refine ⟨hnip, ?_⟩
              show (evs1 ++ (processOTAChunkSeq d1 env _).2).filter isAbortEv = []
              rw [List.filter_append, habt, hs1, cleanupChunkedOTA_filter_abort,
                if_neg hcnd]
              rfl
    · rcases processOTAChunkSeq_aborts d env
        { firmwareVersion := det.firmwareVersion, base64Part := det.base64Part,
          partIndex := det.partIndex, totalParts := det.totalParts,
          isError := det.isError, errorMessage := det.errorMessage } with h | h
      · exact Or.inl h
      · exact Or.inr (Or.inl h)

theorem cleanup_ctx (d : Device) : (cleanup d).ctx = d.ctx := rfl

theorem setState_fields (d : Device) (s : OTAState) :
    (setState d s).1.ctx.inProgress = d.ctx.inProgress ∧
    (setState d s).1.ctx.update_handle = d.ctx.update_handle ∧
    (setState d s).1.ctx.update_partition = d.ctx.update_partition ∧
    (setState d s).1.ctx.currentPart = d.ctx.currentPart ∧
    (setState d s).1.ctx.state = s := by
  simp only [setState]
  split_ifs with h
  · exact ⟨rfl, rfl, rfl, rfl, rfl⟩
  · refine ⟨rfl, rfl, rfl, rfl, ?_⟩
    exact not_not.mp h

/-- The `processMessage` either drops the message unchanged or defers to the
handler selected by `_chunkedOTAEnabled`. -/
theorem processMessage_cases (d : Device) (env : Env) (topic : String) (m : OTAMessage) :
    processMessage d env topic m = (d, []) ∨
    (d.chunkedOTAEnabled = true ∧ d.ctx.inProgress = false ∧
     processMessage d env topic m = processOTAChunk d env m) ∨
    (d.chunkedOTAEnabled = false ∧ d.ctx.inProgress = false ∧
     processMessage d env topic m = processOTAMessage d env m) := by
  rw [processMessage]
  split_ifs with h1 h2 h3 h4
  · exact Or.inl rfl
  · exact Or.inl rfl
  · exact Or.inl rfl
  · refine Or.inr (Or.inl ⟨h4, ?_, rfl⟩)
    revert h2
    rw [isUpdateInProgress]
    cases d.ctx.inProgress <;> simp
  · refine Or.inr (Or.inr ⟨by revert h4; cases d.chunkedOTAEnabled <;> simp, ?_, rfl⟩)
    revert h2
    rw [isUpdateInProgress]
    cases d.ctx.inProgress <;> simp

/-- The periodic tick never writes the `state` field and never emits a
state-change event. -/
theorem handle_state (d : Device) (env : Env) :
    (handle d env).1.ctx.state = d.ctx.state ∧
    (handle d env).2.filter isStateEv = [] := by
  have hblock : ∀ d1 : Device, (handleChunkTimeout d1 env).1.ctx.state = d1.ctx.state ∧
      (handleChunkTimeout d1 env).2.filter isStateEv = [] := by
    intro d1
    rw [handleChunkTimeout]
    split_ifs with h
    · refine ⟨(cleanupChunkedOTA_fst d1.ctx).2.2.2.2, ?_⟩
      rw [List.filter_append, publishError_filter_state, cleanupChunkedOTA_filter_state]
      rfl
    · exact ⟨rfl, rfl⟩
  rw [handle]
  split_ifs with hm
  · refine ⟨(hblock (cleanup d)).1, ?_⟩
    rw [List.filter_append, publishError_filter_state, (hblock (cleanup d)).2]
    rfl
  · exact hblock d

/-- Abort behaviour of the periodic tick, in the shape shared by all entry
points. -/
theorem handle_aborts (d : Device) (env : Env) :
    ((handle d env).2.filter isAbortEv = [] ∧
     (handle d env).1.ctx.inProgress = d.ctx.inProgress ∧
     (handle d env).1.ctx.update_handle = d.ctx.update_handle) ∨
    ((handle d env).2.filter isAbortEv = ((cleanupChunkedOTA d.ctx).2).filter isAbortEv ∧
     SessionReset (handle d env).1.ctx) ∨
    (d.ctx.inProgress = false ∧ (handle d env).2.filter isAbortEv = []) ∨
    (d.ctx.inProgress = false ∧ SessionReset (handle d env).1.ctx ∧
     ∃ hh, (handle d env).2.filter isAbortEv = [Ev.otaAbort hh]) := by
  have hblock : ∀ d1 : Device, d1.ctx = d.ctx →
      ((handleChunkTimeout d1 env).2.filter isAbortEv = [] ∧
       (handleChunkTimeout d1 env).1.ctx.inProgress = d.ctx.inProgress ∧
       (handleChunkTimeout d1 env).1.ctx.update_handle = d.ctx.update_handle) ∨
      ((handleChunkTimeout d1 env).2.filter isAbortEv =
         ((cleanupChunkedOTA d.ctx).2).filter isAbortEv ∧
       SessionReset (handleChunkTimeout d1 env).1.ctx) := by
    intro d1 hctx
    rw [handleChunkTimeout]
    split_ifs with h
    · right
      refine ⟨?_, cleanupChunkedOTA_reset d1.ctx⟩
      rw [List.filter_append, publishError_filter_abort, hctx]
      rfl
    · left
      rw [hctx]
      exact ⟨rfl, rfl, rfl⟩
  rw [handle]
  split_ifs with hm
  · rcases hblock (cleanup d) (cleanup_ctx d) with ⟨h1, h2, h3⟩ | ⟨h1, h2⟩
    · left
      refine ⟨?_, h2, h3⟩
      rw [List.filter_append, publishError_filter_abort, h1]
      rfl
    · right; left
      refine ⟨?_, h2⟩
      rw [List.filter_append, publishError_filter_abort, h1]
      rfl
  · rcases hblock d rfl with h | h
    · exact Or.inl h
    · exact Or.inr (Or.inl h)

/-- Abort behaviour of `abortUpdate`, in the shared shape. -/
theorem abortUpdate_aborts (d : Device) :
    ((abortUpdate d).2.filter isAbortEv = [] ∧
     (abortUpdate d).1.ctx.inProgress = d.ctx.inProgress ∧
     (abortUpdate d).1.ctx.update_handle = d.ctx.update_handle) ∨
    ((abortUpdate d).2.filter isAbortEv = ((cleanupChunkedOTA d.ctx).2).filter isAbortEv ∧
     SessionReset (abortUpdate d).1.ctx) ∨
    (d.ctx.inProgress = false ∧ (abortUpdate d).2.filter isAbortEv = []) ∨
    (d.ctx.inProgress = false ∧ SessionReset (abortUpdate d).1.ctx ∧
     ∃ hh, (abortUpdate d).2.filter isAbortEv = [Ev.otaAbort hh]) := by
  rw [abortUpdate]
  split_ifs with h
  · right; left
    constructor
    · rw [List.filter_append, List.filter_append, publishError_filter_abort,
        setState_filter_abort]
      simp
    · have hs := setState_fields
        (cleanup { d with ctx := (cleanupChunkedOTA d.ctx).1 }) OTAState.aborted
      refine ⟨?_, ?_, ?_, ?_⟩
      · rw [hs.1]
        exact (cleanupChunkedOTA_fst d.ctx).1
      · rw [hs.2.1]
        exact (cleanupChunkedOTA_fst d.ctx).2.1
      · rw [hs.2.2.1]
        exact (cleanupChunkedOTA_fst d.ctx).2.2.1
      · rw [hs.2.2.2.1]
        exact (cleanupChunkedOTA_fst d.ctx).2.2.2.1
  · exact Or.inl ⟨rfl, rfl, rfl⟩

/-- Derive the three facts of claim C3 from the shared abort-case shape. -/
theorem abort_conjuncts {res : Device × List Ev} {c : OTAContext}
    (h : (res.2.filter isAbortEv = [] ∧ res.1.ctx.inProgress = c.inProgress ∧
          res.1.ctx.update_handle = c.update_handle) ∨
         (res.2.filter isAbortEv = ((cleanupChunkedOTA c).2).filter isAbortEv ∧
          SessionReset res.1.ctx) ∨
         (c.inProgress = false ∧ res.2.filter isAbortEv = []) ∨
         (c.inProgress = false ∧ SessionReset res.1.ctx ∧
          ∃ hh, res.2.filter isAbortEv = [Ev.otaAbort hh])) :
    countAborts res.2 ≤ 1 ∧
    (countAborts res.2 = 1 → SessionReset res.1.ctx) ∧
    (c.inProgress = true → c.update_handle ≠ 0 → res.1.ctx.inProgress = false →
      res.2.filter isAbortEv = [Ev.otaAbort c.update_handle]) := by
  have hcf := cleanupChunkedOTA_filter_abort c
  rcases h with ⟨h1, h2, _⟩ | ⟨h1, h2⟩ | ⟨h1, h2⟩ | ⟨h1, h2, hh, h3⟩
  · refine ⟨?_, ?_, ?_⟩
    · rw [countAborts, h1]
      simp
    · intro hcnt
      rw [countAborts, h1] at hcnt
      simp at hcnt
    · intro hip _ hpost
      rw [h2, hip] at hpost
      simp at hpost
  · refine ⟨?_, fun _ => h2, ?_⟩
    · rw [countAborts, h1, hcf]
      split_ifs <;> simp
    · intro hip hhh _
      rw [h1, hcf, if_pos ⟨hip, hhh⟩]
  · refine ⟨?_, ?_, ?_⟩
    · rw [countAborts, h2]
      simp
    · intro hcnt
      rw [countAborts, h2] at hcnt
      simp at hcnt
    · intro hip _ _
      rw [hip] at h1
      simp at h1
  · refine ⟨?_, fun _ => h2, ?_⟩
    · rw [countAborts, h3]
      simp
    · intro hip _ _
      rw [hip] at h1
      simp at h1

theorem setState_otaInProgress (d : Device) (s : OTAState) :
    (setState d s).1.otaInProgress = d.otaInProgress := by
  simp only [setState]
  split_ifs <;> rfl

/-- The `u32sub` agrees with plain subtraction when the clock has not wrapped. -/
theorem u32sub_eq (a b : Nat) (hb : b ≤ a) (ha : a < 2 ^ 32) : u32sub a b = a - b := by
  have h2 : (2 : Nat) ^ 32 = 4294967296 := by norm_num
  rw [h2] at ha
  rw [u32sub, h2]
  omega

namespace Claims

/-- Claim **C1** (code behaviour at the claimed input): delivering the well-formed
three-chunk session through `processMessage` does not reach success.  The
`isUpdateInProgress()` gate drops chunks 2 and 3 because `_otaContext.inProgress`
is already set after chunk 1, so the session stalls at part 1: `esp_ota_end`
and `esp_ota_set_boot_partition` are never called, no success event and no
reboot request are emitted, the progress callback only ever saw 0 and 33, and
the session record is left in progress with 400 bytes received. -/
theorem C1_happy_path_stalls_at_part_one :
    c1run.1.ctx.inProgress = true ∧
    c1run.1.ctx.currentPart = 1 ∧
    c1run.1.ctx.receivedSize = 400 ∧
    c1run.2.filter isCompletionEv = [] ∧
    c1run.2.filter isErrorEv = [] ∧
    countAborts c1run.2 = 0 ∧
    progressCbValues c1run.2 = [0, 33] := by decide

/-- Claim **C2** (counterexample): with the live session pinned to
`total_parts = 3` by part 1, an in-sequence chunk declaring `total_parts = 5`
is accepted anyway: the chunk is written, `current_part` advances to 2,
800 bytes are accounted, no error is published and no abort happens — the
handler never compares the chunk's `total_parts` against the pinned value,
refuting the claimed acceptance condition. -/
theorem C2_mismatched_totalParts_accepted :
    (chunkDet 2 5).totalParts ≠ liveDevice.ctx.totalParts ∧
    (chunkDet 2 5).partIndex = liveDevice.ctx.currentPart + 1 ∧
    (processOTAChunk liveDevice happyEnv (OTAMessage.update (chunkDet 2 5))).1.ctx.currentPart = 2 ∧
    (processOTAChunk liveDevice happyEnv (OTAMessage.update (chunkDet 2 5))).1.ctx.receivedSize = 800 ∧
    (processOTAChunk liveDevice happyEnv (OTAMessage.update (chunkDet 2 5))).1.ctx.inProgress = true ∧
    (processOTAChunk liveDevice happyEnv (OTAMessage.update (chunkDet 2 5))).2.filter isErrorEv = [] ∧
    countAborts (processOTAChunk liveDevice happyEnv (OTAMessage.update (chunkDet 2 5))).2 = 0 := by
  decide

/-- A chunk message carrying `IsError = true` (an error report from the
sender). -/
def errorDet : MsgDetails :=
  { firmwareVersion := "1.0.1", base64Data := [], base64Part := [],
    partIndex := 0, totalParts := 0, isError := true, errorMessage := "boom" }

/-- Claim **C4** (counterexample): while the session `liveCtx` is live on handle 1,
a chunk with the `IsError` flag set handed to the session handler
`_processOTAChunk` is not side-effect-free: it aborts the live session's
writer handle and resets the live session record, refuting the claimed
rejection-without-side-effects. -/
theorem C4_isError_chunk_kills_live_session :
    liveDevice.ctx.inProgress = true ∧
    liveDevice.ctx.update_handle = 1 ∧
    (processOTAChunk liveDevice happyEnv (OTAMessage.update errorDet)).1.ctx.inProgress = false ∧
    (processOTAChunk liveDevice happyEnv (OTAMessage.update errorDet)).1.ctx.update_handle = 0 ∧
    (processOTAChunk liveDevice happyEnv (OTAMessage.update errorDet)).1.ctx.update_partition = none ∧
    Ev.otaAbort 1 ∈ (processOTAChunk liveDevice happyEnv (OTAMessage.update errorDet)).2 ∧
    Ev.errorEv "boom" "1.0.1" ∈ (processOTAChunk liveDevice happyEnv (OTAMessage.update errorDet)).2 := by
  decide

/-- A live session with 600 bytes received, one part short of a two-part
total: the next 400-byte chunk completes it with exactly 1000 bytes. -/
def dev600of2 : Device :=
  { initialDevice with ctx := { liveCtx with receivedSize := 600, totalParts := 2 } }

/-- Claim **C5** (counterexample): a session completing with
`received_bytes = 1000 ∈ [0, 1023]` is *not* rejected as too small: the
guard in `_completeChunkedOTA` is `receivedSize < 1000`, so `esp_ota_end` and
`esp_ota_set_boot_partition` are called, success is published and a reboot
requested — refuting the claimed 1024-byte threshold. -/
theorem C5_1000_bytes_passes_the_guard :
    (processOTAChunk dev600of2 happyEnv (OTAMessage.update (chunkDet 2 2))).1.ctx.receivedSize = 1000 ∧
    Ev.otaEnd 1 ∈ (processOTAChunk dev600of2 happyEnv (OTAMessage.update (chunkDet 2 2))).2 ∧
    Ev.otaSetBoot 1 ∈ (processOTAChunk dev600of2 happyEnv (OTAMessage.update (chunkDet 2 2))).2 ∧
    Ev.successEv "1.0.1" ∈ (processOTAChunk dev600of2 happyEnv (OTAMessage.update (chunkDet 2 2))).2 ∧
    Ev.restart ∈ (processOTAChunk dev600of2 happyEnv (OTAMessage.update (chunkDet 2 2))).2 ∧
    Ev.errorEv "Firmware demasiado pequeño" "1.0.1" ∉
      (processOTAChunk dev600of2 happyEnv (OTAMessage.update (chunkDet 2 2))).2 := by
  decide

/-- Claim **C6** (counterexample): `abortUpdate` on the live session does abort the
handle and reset the session record, but the session does not return to the
idle state: `getCurrentState` reports `OTA_STATE_ABORTED` afterwards, not
`OTA_STATE_IDLE`, refuting the claimed return to idle. -/
theorem C6_abortUpdate_leaves_state_aborted :
    isUpdateInProgress liveDevice = true ∧
    (abortUpdate liveDevice).1.ctx.inProgress = false ∧
    getCurrentState (abortUpdate liveDevice).1 = OTAState.aborted ∧
    getCurrentState (abortUpdate liveDevice).1 ≠ OTAState.idle := by
  decide

/-- Claim **C8** (counterexample): the decoder's pre-decode ceiling *does* reject
the encoding of a 50000-byte string: the encoding has 66668 bytes, the
decoder computes `maxDecodedSize = 66668 * 3 / 4 + 2 = 50003 > 50000` and
returns the empty string, so the round trip fails at length 50000. -/
theorem C8_roundtrip_fails_at_50000 :
    base64Decode (base64Encode (List.replicate 50000 65)) ≠ List.replicate 50000 65 := by
  rw [base64Decode_encode_nil_of_big (List.replicate 50000 65)
    (by rw [List.length_replicate]; omega)]
  intro h
  have h2 := congrArg List.length h
  rw [List.length_nil, List.length_replicate] at h2
  exact absurd h2 (by omega)

/-- Claim **C9** (counterexample): a requested chunk size above 65536 is not capped
at 65536 — `setChunkSize` falls back to the default `MQTT_OTA_BUFFSIZE`
(1024). -/
theorem C9_oversize_resets_to_default :
    (setChunkSize initialDevice 65537).chunkSize = 1024 ∧
    (setChunkSize initialDevice 65537).chunkSize ≠ 65536 := by
  decide

/-- Claim **C3**: for every entry point (a dispatched message, a chunk handed to the
session handler, a periodic tick, an `abortUpdate` call) in chunked mode, at
most one `esp_ota_abort` happens per call; whenever one happens the session
record has been reset to its idle values (inProgress = false, handle = 0,
partition = null, current_part = 0); and whenever a live session with an
acquired handle ends no-longer-in-progress, exactly one abort was called, on
precisely that handle. -/
theorem C3_abort_exactly_once (d : Device) (env : Env) (a : Act)
    (hc : d.chunkedOTAEnabled = true) :
    countAborts (step d env a).2 ≤ 1 ∧
    (countAborts (step d env a).2 = 1 → SessionReset (step d env a).1.ctx) ∧
    (d.ctx.inProgress = true → d.ctx.update_handle ≠ 0 →
      (step d env a).1.ctx.inProgress = false →
      (step d env a).2.filter isAbortEv = [Ev.otaAbort d.ctx.update_handle]) := by
  rcases a with ⟨topic, m⟩ | m | _ | _
  · have hstep : step d env (Act.msg topic m) = processMessage d env topic m := rfl
    rcases processMessage_cases d env topic m with hp | ⟨_, _, hp⟩ | ⟨hfalse, _, _⟩
    · refine abort_conjuncts (Or.inl ?_)
      rw [hstep, hp]
      exact ⟨rfl, rfl, rfl⟩
    · refine abort_conjuncts ?_
      rw [hstep, hp]
      exact processOTAChunk_aborts d env m
    · rw [hc] at hfalse
      simp at hfalse
  · exact abort_conjuncts (processOTAChunk_aborts d env m)
  · exact abort_conjuncts (handle_aborts d env)
  · exact abort_conjuncts (abortUpdate_aborts d)

/-- Witness for C3 at a concrete input: an `abortUpdate` call on the live
session `liveDevice`. -/
theorem C3_abort_exactly_once_witness :
    countAborts (step liveDevice happyEnv Act.abortU).2 ≤ 1 ∧
    (countAborts (step liveDevice happyEnv Act.abortU).2 = 1 →
      SessionReset (step liveDevice happyEnv Act.abortU).1.ctx) ∧
    (liveDevice.ctx.inProgress = true → liveDevice.ctx.update_handle ≠ 0 →
      (step liveDevice happyEnv Act.abortU).1.ctx.inProgress = false →
      (step liveDevice happyEnv Act.abortU).2.filter isAbortEv =
        [Ev.otaAbort liveDevice.ctx.update_handle]) :=
  C3_abort_exactly_once liveDevice happyEnv Act.abortU rfl

/-- Claim **C10**: in chunked mode, no entry point other than `abortUpdate` ever
writes the session's `state` field or emits a state-change event — in
particular, starting from the constructor's `OTA_STATE_IDLE`,
`getCurrentState` stays idle and `isValidating`/`isWriting` stay false
throughout any chunked update driven through `processMessage` — while
`abortUpdate` on an active session sets the field to `OTA_STATE_ABORTED`
(and on an idle device does nothing, leaving it there afterwards). -/
theorem C10_state_field_never_written (d : Device) (env : Env) (a : Act)
    (hc : d.chunkedOTAEnabled = true) :
    (a ≠ Act.abortU →
      (step d env a).1.ctx.state = d.ctx.state ∧
      (step d env a).2.filter isStateEv = [] ∧
      (d.ctx.state = OTAState.idle →
        getCurrentState (step d env a).1 = OTAState.idle ∧
        isValidating (step d env a).1 = false ∧
        isWriting (step d env a).1 = false)) ∧
    (a = Act.abortU → isUpdateInProgress d = true →
      (step d env a).1.ctx.state = OTAState.aborted) ∧
    (a = Act.abortU → isUpdateInProgress d = false → step d env a = (d, [])) := by
  have hidle : ∀ r : Device × List Ev, r.1.ctx.state = d.ctx.state →
      d.ctx.state = OTAState.idle →
      getCurrentState r.1 = OTAState.idle ∧
      isValidating r.1 = false ∧ isWriting r.1 = false := by
    intro r hr hi
    rw [getCurrentState, isValidating, isWriting, hr, hi]
    exact ⟨rfl, rfl, rfl⟩
  refine ⟨?_, ?_, ?_⟩
  · intro hne
    rcases a with ⟨topic, m⟩ | m | _ | _
    · have hstep : step d env (Act.msg topic m) = processMessage d env topic m := rfl
      rcases processMessage_cases d env topic m with hp | ⟨_, _, hp⟩ | ⟨hfalse, _, _⟩
      · rw [hstep, hp]
        exact ⟨rfl, rfl, fun hi => hidle (d, []) rfl hi⟩
      · rw [hstep, hp]
        have hs := processOTAChunk_state d env m
        exact ⟨hs.1, hs.2, fun hi => hidle _ hs.1 hi⟩
      · rw [hc] at hfalse
        simp at hfalse
    · have hs := processOTAChunk_state d env m
      exact ⟨hs.1, hs.2, fun hi => hidle _ hs.1 hi⟩
    · have hs := handle_state d env
      exact ⟨hs.1, hs.2, fun hi => hidle _ hs.1 hi⟩
    · exact absurd rfl hne
  · intro ha hup
    subst ha
    show (abortUpdate d).1.ctx.state = OTAState.aborted
    rw [abortUpdate, if_pos hup]
    exact (setState_fields _ _).2.2.2.2
  · intro ha hup
    subst ha
    show abortUpdate d = (d, [])
    rw [abortUpdate, if_neg (by rw [hup]; simp)]

/-- Witness for C10 at a concrete input: a periodic tick on the fresh
device. -/
theorem C10_state_field_witness :
    (Act.tick ≠ Act.abortU →
      (step initialDevice happyEnv Act.tick).1.ctx.state = initialDevice.ctx.state ∧
      (step initialDevice happyEnv Act.tick).2.filter isStateEv = [] ∧
      (initialDevice.ctx.state = OTAState.idle →
        getCurrentState (step initialDevice happyEnv Act.tick).1 = OTAState.idle ∧
        isValidating (step initialDevice happyEnv Act.tick).1 = false ∧
        isWriting (step initialDevice happyEnv Act.tick).1 = false)) ∧
    (Act.tick = Act.abortU → isUpdateInProgress initialDevice = true →
      (step initialDevice happyEnv Act.tick).1.ctx.state = OTAState.aborted) ∧
    (Act.tick = Act.abortU → isUpdateInProgress initialDevice = false →
      step initialDevice happyEnv Act.tick = (initialDevice, [])) :=
  C10_state_field_never_written initialDevice happyEnv Act.tick rfl

/-- Claim **C2** (amended): for a live chunked session, a chunk delivered to the
update handler is accepted iff its `part_index` equals `current_part + 1`;
the chunk's `total_parts` is never compared against the session's pinned
value (no hypothesis below mentions it).  A mid-session chunk with
`part_index = 1` is silently dropped rather than treated as fatal; any other
out-of-sequence `part_index` is a fatal session error. -/
theorem C2_sequencing_amended (d : Device) (env : Env) (det : MsgDetails)
    (hip : d.ctx.inProgress = true) (hie : det.isError = false)
    (hne : det.base64Part.isEmpty = false) (hfw : det.firmwareVersion ≠ "") :
    (det.partIndex = 1 → processOTAChunk d env (OTAMessage.update det) = (d, [])) ∧
    (det.partIndex ≠ 1 → det.partIndex ≠ d.ctx.currentPart + 1 →
      SessionReset (processOTAChunk d env (OTAMessage.update det)).1.ctx ∧
      Ev.errorEv "Chunk fuera de secuencia" det.firmwareVersion ∈
        (processOTAChunk d env (OTAMessage.update det)).2) ∧
    (det.partIndex ≠ 1 → det.partIndex = d.ctx.currentPart + 1 →
      d.ctx.update_handle ≠ 0 → (base64Decode det.base64Part).length ≠ 0 →
      env.writeOk = true → det.partIndex ≠ det.totalParts →
      (processOTAChunk d env (OTAMessage.update det)).1.ctx.currentPart = det.partIndex ∧
      (processOTAChunk d env (OTAMessage.update det)).1.ctx.receivedSize =
        d.ctx.receivedSize + (base64Decode det.base64Part).length ∧
      (processOTAChunk d env (OTAMessage.update det)).1.ctx.inProgress = true ∧
      (processOTAChunk d env (OTAMessage.update det)).2.filter isErrorEv = []) := by
  have hie' : ¬(det.isError = true) := by simp [hie]
  have hvalid : ¬(det.base64Part.isEmpty = true ∨ det.firmwareVersion = "") := by
    simp [hne, hfw]
  refine ⟨?_, ?_, ?_⟩
  · intro hk1
    simp only [processOTAChunk]
    rw [if_neg hie', if_neg hvalid, if_pos hk1, if_pos hip]
  · intro hk1 hkne
    simp only [processOTAChunk]
    rw [if_neg hie', if_neg hvalid, if_neg hk1]
    simp only [processOTAChunkSeq]
    rw [if_pos (Or.inr hkne)]
    refine ⟨cleanupChunkedOTA_reset d.ctx, ?_⟩
    simp only [publishError]
    rw [if_neg hfw]
    simp
  · intro hk1 hkeq hh hdec hw hlast
    have hnoseq : ¬(d.ctx.inProgress = false ∨ det.partIndex ≠ d.ctx.currentPart + 1) := by
      simp only [hip, hkeq]
      simp
    have hguard : ¬(d.ctx.inProgress = false ∨ d.ctx.update_handle = 0) := by
      simp [hip, hh]
    have hhdr : ¬(det.partIndex = 1 ∧
        processImageHeader (base64Decode det.base64Part) = false) := by
      intro hcontr
      exact hk1 hcontr.1
    have hnw : ¬(env.writeOk = false) := by simp [hw]
    have hndec : ¬((base64Decode det.base64Part).length = 0) := hdec
    simp only [processOTAChunk]
    rw [if_neg hie', if_neg hvalid, if_neg hk1]
    simp only [processOTAChunkSeq]
    rw [if_neg hnoseq]
    simp only [processChunkData]
    rw [if_neg hguard, if_neg hndec, if_neg hhdr, if_neg hnw]
    simp only [if_neg hlast]
    refine ⟨rfl, rfl, hip, ?_⟩
    simp only [chunkProgress, publishProgress, List.filter_append, List.filter_cons]
    split_ifs <;> simp_all [isErrorEv]

/-- Witness for C2 at a concrete input: the live session `liveDevice`
(pinned to 3 parts) receiving the in-sequence chunk 2 that declares 5 total
parts. -/
theorem C2_sequencing_amended_witness :
    ((chunkDet 2 5).partIndex = 1 →
      processOTAChunk liveDevice happyEnv (OTAMessage.update (chunkDet 2 5)) =
        (liveDevice, [])) ∧
    ((chunkDet 2 5).partIndex ≠ 1 →
      (chunkDet 2 5).partIndex ≠ liveDevice.ctx.currentPart + 1 →
      SessionReset (processOTAChunk liveDevice happyEnv
        (OTAMessage.update (chunkDet 2 5))).1.ctx ∧
      Ev.errorEv "Chunk fuera de secuencia" (chunkDet 2 5).firmwareVersion ∈
        (processOTAChunk liveDevice happyEnv (OTAMessage.update (chunkDet 2 5))).2) ∧
    ((chunkDet 2 5).partIndex ≠ 1 →
      (chunkDet 2 5).partIndex = liveDevice.ctx.currentPart + 1 →
      liveDevice.ctx.update_handle ≠ 0 →
      (base64Decode (chunkDet 2 5).base64Part).length ≠ 0 →
      happyEnv.writeOk = true → (chunkDet 2 5).partIndex ≠ (chunkDet 2 5).totalParts →
      (processOTAChunk liveDevice happyEnv
        (OTAMessage.update (chunkDet 2 5))).1.ctx.currentPart = (chunkDet 2 5).partIndex ∧
      (processOTAChunk liveDevice happyEnv
        (OTAMessage.update (chunkDet 2 5))).1.ctx.receivedSize =
        liveDevice.ctx.receivedSize + (base64Decode (chunkDet 2 5).base64Part).length ∧
      (processOTAChunk liveDevice happyEnv
        (OTAMessage.update (chunkDet 2 5))).1.ctx.inProgress = true ∧
      (processOTAChunk liveDevice happyEnv
        (OTAMessage.update (chunkDet 2 5))).2.filter isErrorEv = []) :=
  C2_sequencing_amended liveDevice happyEnv (chunkDet 2 5) rfl rfl (by decide) (by decide)

/-- Claim **C4** (amended): while a chunked session is in progress, every message
through `processMessage` is dropped with no side effects at all (the
`isUpdateInProgress()` gate), and a `part_index = 1` chunk handed directly to
the session handler is silently dropped; but a chunk with the `IsError` flag
set, an empty payload or an empty version handed to the session handler
*terminates* the live session: one error is published, the live handle is
aborted, and the session record is reset. -/
theorem C4_rejection_amended (d : Device) (env : Env) (det : MsgDetails)
    (topic : String) (m : OTAMessage) (hip : d.ctx.inProgress = true) :
    processMessage d env topic m = (d, []) ∧
    (det.isError = false → det.base64Part.isEmpty = false → det.firmwareVersion ≠ "" →
      det.partIndex = 1 → processOTAChunk d env (OTAMessage.update det) = (d, [])) ∧
    ((det.isError = true ∨ det.base64Part.isEmpty = true ∨ det.firmwareVersion = "") →
      SessionReset (processOTAChunk d env (OTAMessage.update det)).1.ctx ∧
      ((processOTAChunk d env (OTAMessage.update det)).2.filter isErrorEv).length = 1 ∧
      (d.ctx.update_handle ≠ 0 →
        Ev.otaAbort d.ctx.update_handle ∈
          (processOTAChunk d env (OTAMessage.update det)).2)) := by
  have hgen : ∀ msg v : String,
      SessionReset (cleanupChunkedOTA d.ctx).1 ∧
      ((publishError d msg v ++ (cleanupChunkedOTA d.ctx).2).filter isErrorEv).length = 1 ∧
      (d.ctx.update_handle ≠ 0 →
        Ev.otaAbort d.ctx.update_handle ∈ publishError d msg v ++ (cleanupChunkedOTA d.ctx).2) := by
    intro msg v
    refine ⟨cleanupChunkedOTA_reset d.ctx, ?_, ?_⟩
    · rw [List.filter_append, publishError_filter_error, cleanupChunkedOTA_filter_error]
      simp
    · intro hh
      simp [publishError, cleanupChunkedOTA, hip, hh]
  refine ⟨?_, ?_, ?_⟩
  · rw [processMessage]
    split_ifs with h1 h2
    · rfl
    · rfl
    all_goals exact absurd (by rw [isUpdateInProgress, hip, Bool.or_true]) h2
  · intro hie hne hfw hk1
    have hie' : ¬(det.isError = true) := by simp [hie]
    have hvalid : ¬(det.base64Part.isEmpty = true ∨ det.firmwareVersion = "") := by
      simp [hne, hfw]
    simp only [processOTAChunk]
    rw [if_neg hie', if_neg hvalid, if_pos hk1, if_pos hip]
  · intro hbad
    by_cases hbe : det.isError = true
    · simp only [processOTAChunk]
      rw [if_pos hbe]
      exact hgen det.errorMessage det.firmwareVersion
    · have hvalid : det.base64Part.isEmpty = true ∨ det.firmwareVersion = "" := by
        rcases hbad with hb | hb | hb
        · exact absurd hb hbe
        · exact Or.inl hb
        · exact Or.inr hb
      simp only [processOTAChunk]
      rw [if_neg hbe, if_pos hvalid]
      exact hgen "Chunk OTA incompleto" det.firmwareVersion

/-- Witness for C4 at a concrete input: the live session `liveDevice`
receiving the `IsError` chunk `errorDet`. -/
theorem C4_rejection_amended_witness :
    processMessage liveDevice happyEnv "ota" (OTAMessage.update errorDet) =
      (liveDevice, []) ∧
    (errorDet.isError = false → errorDet.base64Part.isEmpty = false →
      errorDet.firmwareVersion ≠ "" → errorDet.partIndex = 1 →
      processOTAChunk liveDevice happyEnv (OTAMessage.update errorDet) =
        (liveDevice, [])) ∧
    ((errorDet.isError = true ∨ errorDet.base64Part.isEmpty = true ∨
        errorDet.firmwareVersion = "") →
      SessionReset (processOTAChunk liveDevice happyEnv
        (OTAMessage.update errorDet)).1.ctx ∧
      ((processOTAChunk liveDevice happyEnv
        (OTAMessage.update errorDet)).2.filter isErrorEv).length = 1 ∧
      (liveDevice.ctx.update_handle ≠ 0 →
        Ev.otaAbort liveDevice.ctx.update_handle ∈
          (processOTAChunk liveDevice happyEnv (OTAMessage.update errorDet)).2)) :=
  C4_rejection_amended liveDevice happyEnv errorDet "ota" (OTAMessage.update errorDet) rfl

/-- Claim **C5** (amended): the minimum-size threshold in `_completeChunkedOTA` is
1000 bytes, not 1024: whenever the chunk with `part_index = total_parts` is
processed and the resulting `received_bytes` is below 1000 (so for every
value in [0, 999]), the session is rejected with "Firmware demasiado
pequeño", `esp_ota_end` and `esp_ota_set_boot_partition` are not called, no
success is published, and the session record is cleaned up.  (For
`received_bytes` in [1000, 1023] the finalize step proceeds instead.) -/
theorem C5_min_size_amended (d : Device) (env : Env) (det : MsgDetails)
    (hip : d.ctx.inProgress = true) (hh : d.ctx.update_handle ≠ 0)
    (hie : det.isError = false) (hne : det.base64Part.isEmpty = false)
    (hfw : det.firmwareVersion ≠ "") (hk1 : det.partIndex ≠ 1)
    (hkeq : det.partIndex = d.ctx.currentPart + 1)
    (hlast : det.partIndex = det.totalParts) (hw : env.writeOk = true)
    (hdec : (base64Decode det.base64Part).length ≠ 0)
    (hsize : d.ctx.receivedSize + (base64Decode det.base64Part).length < 1000) :
    Ev.errorEv "Firmware demasiado pequeño" det.firmwareVersion ∈
      (processOTAChunk d env (OTAMessage.update det)).2 ∧
    (∀ hz, Ev.otaEnd hz ∉ (processOTAChunk d env (OTAMessage.update det)).2) ∧
    (∀ p, Ev.otaSetBoot p ∉ (processOTAChunk d env (OTAMessage.update det)).2) ∧
    (∀ v, Ev.successEv v ∉ (processOTAChunk d env (OTAMessage.update det)).2) ∧
    SessionReset (processOTAChunk d env (OTAMessage.update det)).1.ctx := by
  have hie' : ¬(det.isError = true) := by simp [hie]
  have hvalid : ¬(det.base64Part.isEmpty = true ∨ det.firmwareVersion = "") := by
    simp [hne, hfw]
  have hnoseq : ¬(d.ctx.inProgress = false ∨ det.partIndex ≠ d.ctx.currentPart + 1) := by
    simp only [hip, hkeq]
    simp
  have hguard : ¬(d.ctx.inProgress = false ∨ d.ctx.update_handle = 0) := by
    simp [hip, hh]
  have hhdr : ¬(det.partIndex = 1 ∧
      processImageHeader (base64Decode det.base64Part) = false) := by
    intro hcontr
    exact hk1 hcontr.1
  have hnw : ¬(env.writeOk = false) := by simp [hw]
  have hndec : ¬((base64Decode det.base64Part).length = 0) := hdec
  simp only [processOTAChunk]
  rw [if_neg hie', if_neg hvalid, if_neg hk1]
  simp only [processOTAChunkSeq]
  rw [if_neg hnoseq]
  simp only [processChunkData]
  rw [if_neg hguard, if_neg hndec, if_neg hhdr, if_neg hnw]
  simp only [if_pos hlast]
  simp only [completeChunkedOTA, chunkProgress, publishProgress]
  rw [if_pos hsize]
  refine ⟨?_, ?_, ?_, ?_, ?_⟩
  · simp only [cleanupChunkedOTA]
    split_ifs <;> simp_all [publishError]
  · intro hz
    simp only [cleanupChunkedOTA]
    split_ifs <;> simp [publishError]
  · intro p
    simp only [cleanupChunkedOTA]
    split_ifs <;> simp [publishError]
  · intro v
    simp only [cleanupChunkedOTA]
    split_ifs <;> simp [publishError]
  · exact cleanupChunkedOTA_reset _

/-- A live two-part session with 400 bytes received: the witness for the
minimum-size claim. -/
def dev400of2 : Device :=
  { initialDevice with ctx := { liveCtx with totalParts := 2 } }

/-- Witness for C5 at a concrete input: `dev400of2` receiving its final
chunk, for a total of 800 < 1000 bytes. -/
theorem C5_min_size_amended_witness :
    Ev.errorEv "Firmware demasiado pequeño" (chunkDet 2 2).firmwareVersion ∈
      (processOTAChunk dev400of2 happyEnv (OTAMessage.update (chunkDet 2 2))).2 ∧
    (∀ hz, Ev.otaEnd hz ∉
      (processOTAChunk dev400of2 happyEnv (OTAMessage.update (chunkDet 2 2))).2) ∧
    (∀ p, Ev.otaSetBoot p ∉
      (processOTAChunk dev400of2 happyEnv (OTAMessage.update (chunkDet 2 2))).2) ∧
    (∀ v, Ev.successEv v ∉
      (processOTAChunk dev400of2 happyEnv (OTAMessage.update (chunkDet 2 2))).2) ∧
    SessionReset (processOTAChunk dev400of2 happyEnv
      (OTAMessage.update (chunkDet 2 2))).1.ctx :=
  C5_min_size_amended dev400of2 happyEnv (chunkDet 2 2) rfl (by decide) rfl (by decide)
    (by decide) (by decide) (by decide) (by decide) (by decide) (by decide) (by decide)

/-- Claim **C6** (amended): if a session is active, `abortUpdate` publishes the
abort error, aborts the acquired writer handle, resets the session record to
its idle values and emits a state-change to `OTA_STATE_ABORTED` — the state
field ends at `OTA_STATE_ABORTED`, not back at `OTA_STATE_IDLE`; if no
session is active, `abortUpdate` is a no-op. -/
theorem C6_abortUpdate_amended (d : Device) :
    (isUpdateInProgress d = false → abortUpdate d = (d, [])) ∧
    (isUpdateInProgress d = true →
      SessionReset (abortUpdate d).1.ctx ∧
      (abortUpdate d).1.ctx.state = OTAState.aborted ∧
      (abortUpdate d).1.otaInProgress = false ∧
      (∃ v, Ev.errorEv "Actualización abortada por usuario" v ∈ (abortUpdate d).2) ∧
      (d.ctx.inProgress = true → d.ctx.update_handle ≠ 0 →
        Ev.otaAbort d.ctx.update_handle ∈ (abortUpdate d).2) ∧
      (d.ctx.state ≠ OTAState.aborted →
        Ev.stateEv OTAState.aborted ∈ (abortUpdate d).2)) := by
  refine ⟨?_, ?_⟩
  · intro h
    rw [abortUpdate, if_neg (by rw [h]; simp)]
  · intro h
    rw [abortUpdate, if_pos h]
    have hs := setState_fields
      (cleanup { d with ctx := (cleanupChunkedOTA d.ctx).1 }) OTAState.aborted
    refine ⟨?_, hs.2.2.2.2, ?_, ?_, ?_, ?_⟩
    · refine ⟨?_, ?_, ?_, ?_⟩
      · rw [hs.1]
        exact (cleanupChunkedOTA_fst d.ctx).1
      · rw [hs.2.1]
        exact (cleanupChunkedOTA_fst d.ctx).2.1
      · rw [hs.2.2.1]
        exact (cleanupChunkedOTA_fst d.ctx).2.2.1
      · rw [hs.2.2.2.1]
        exact (cleanupChunkedOTA_fst d.ctx).2.2.2.1
    · rw [setState_otaInProgress]
      rfl
    · exact ⟨if d.currentFirmwareVersion = "" then d.firmwareVersionBegin
          else d.currentFirmwareVersion, by simp [publishError]⟩
    · intro hip hhh
      simp [cleanupChunkedOTA, hip, hhh]
    · intro hne
      have hst : (cleanup { d with ctx := (cleanupChunkedOTA d.ctx).1 }).ctx.state ≠
          OTAState.aborted := by
        show (cleanupChunkedOTA d.ctx).1.state ≠ OTAState.aborted
        rw [(cleanupChunkedOTA_fst d.ctx).2.2.2.2]
        exact hne
      simp [setState, hst]

/-- Witness for C6 at a concrete input: `abortUpdate` on the live session
`liveDevice`. -/
theorem C6_abortUpdate_amended_witness :
    SessionReset (abortUpdate liveDevice).1.ctx ∧
    (abortUpdate liveDevice).1.ctx.state = OTAState.aborted ∧
    (abortUpdate liveDevice).1.otaInProgress = false ∧
    (∃ v, Ev.errorEv "Actualización abortada por usuario" v ∈
      (abortUpdate liveDevice).2) ∧
    (liveDevice.ctx.inProgress = true → liveDevice.ctx.update_handle ≠ 0 →
      Ev.otaAbort liveDevice.ctx.update_handle ∈ (abortUpdate liveDevice).2) ∧
    (liveDevice.ctx.state ≠ OTAState.aborted →
      Ev.stateEv OTAState.aborted ∈ (abortUpdate liveDevice).2) :=
  (C6_abortUpdate_amended liveDevice).2 rfl

/-- Claim **C7**: with no monolithic session active and an unwrapped clock, a
periodic `handle()` tick is a no-op when no chunked session is in progress or
when `now - started_at ≤ 420000` ms; once the elapsed time exceeds the
7-minute deadline it publishes the chunked-timeout error, aborts the writer
handle, and resets the session record to its idle values (the state field,
idle throughout a chunked session, is untouched). -/
theorem C7_timeout_tick (d : Device) (env : Env)
    (hmono : d.otaInProgress = false) (hnow : env.now < 2 ^ 32) :
    (d.ctx.inProgress = false → handle d env = (d, [])) ∧
    (d.ctx.inProgress = true → d.ctx.startTime ≤ env.now →
      ((env.now - d.ctx.startTime ≤ 420000 → handle d env = (d, [])) ∧
       (420000 < env.now - d.ctx.startTime → d.ctx.update_handle ≠ 0 →
         d.ctx.firmwareVersion ≠ "" →
         Ev.errorEv "Timeout en OTA por chunks" d.ctx.firmwareVersion ∈ (handle d env).2 ∧
         Ev.otaAbort d.ctx.update_handle ∈ (handle d env).2 ∧
         SessionReset (handle d env).1.ctx ∧
         (handle d env).1.ctx.state = d.ctx.state))) := by
  have hm : ¬(d.otaInProgress = true ∧
      u32sub env.now d.otaStartTime > MQTT_OTA_TIMEOUT_MS) := by
    simp [hmono]
  rw [handle, if_neg hm, handleChunkTimeout]
  refine ⟨?_, ?_⟩
  · intro hip
    rw [if_neg (by simp [hip])]
  · intro hip hst
    rw [u32sub_eq env.now d.ctx.startTime hst hnow]
    constructor
    · intro hle
      rw [if_neg ?hc]
      case hc =>
        intro hcontr
        have : MQTT_OTA_TIMEOUT_MS < env.now - d.ctx.startTime := hcontr.2
        rw [MQTT_OTA_TIMEOUT_MS] at this
        omega
    · intro hgt hh hfw
      rw [if_pos ⟨hip, by rw [MQTT_OTA_TIMEOUT_MS]; exact hgt⟩]
      refine ⟨?_, ?_, cleanupChunkedOTA_reset d.ctx, (cleanupChunkedOTA_fst d.ctx).2.2.2.2⟩
      · simp [publishError, hfw]
      · simp [cleanupChunkedOTA, hip, hh]

/-- The environment of the witness tick: the clock reads 420001 ms. -/
def lateEnv : Env := { happyEnv with now := 420001 }

/-- Witness for C7 at a concrete input: a tick on the live session
(started at 0) at 420001 ms. -/
theorem C7_timeout_tick_witness :
    Ev.errorEv "Timeout en OTA por chunks" liveDevice.ctx.firmwareVersion ∈
      (handle liveDevice lateEnv).2 ∧
    Ev.otaAbort liveDevice.ctx.update_handle ∈ (handle liveDevice lateEnv).2 ∧
    SessionReset (handle liveDevice lateEnv).1.ctx ∧
    (handle liveDevice lateEnv).1.ctx.state = liveDevice.ctx.state := by
  have h := C7_timeout_tick liveDevice lateEnv rfl (by decide)
  exact ((h.2 rfl (by decide)).2 (by decide) (by decide) (by decide))

/-- Claim **C8** (amended): the encode/decode round trip holds for every byte
string of length at most 49998; from length 49999 on, the decoder's
pre-decode ceiling (`maxDecodedSize = encodedLength * 3 / 4 + 2 > 50000`)
rejects the encoding, so the bound claimed as 50,000 is in fact 49,998. -/
theorem C8_roundtrip_amended (x : List Nat) (hx : ∀ b ∈ x, b < 256)
    (hn : x.length ≤ 49998) : base64Decode (base64Encode x) = x :=
  base64Decode_encode x hx hn

/-- Witness for C8 at a concrete input. -/
theorem C8_roundtrip_amended_witness :
    base64Decode (base64Encode [0, 77, 255, 100]) = [0, 77, 255, 100] :=
  C8_roundtrip_amended [0, 77, 255, 100] (by decide) (by decide)

/-- Claim **C9** (amended): `chunk_size` defaults to 1024 (`MQTT_OTA_BUFFSIZE`); a
requested size `s` with `0 < s ≤ 65536` is stored; a request above 65,536 —
or zero — is *not* capped at 65,536 but resets the chunk size to the default
1024. -/
theorem C9_setChunkSize_amended (d : Device) (s : Nat) :
    initialDevice.chunkSize = 1024 ∧
    (0 < s → s ≤ 65536 → (setChunkSize d s).chunkSize = s) ∧
    (65536 < s → (setChunkSize d s).chunkSize = 1024) ∧
    (s = 0 → (setChunkSize d s).chunkSize = 1024) := by
  refine ⟨rfl, ?_, ?_, ?_⟩
  · intro h1 h2
    show (if s > 0 ∧ s ≤ MQTT_OTA_MAX_CHUNK_SIZE then s else MQTT_OTA_BUFFSIZE) = s
    rw [if_pos ⟨h1, h2⟩]
  · intro h
    show (if s > 0 ∧ s ≤ MQTT_OTA_MAX_CHUNK_SIZE then s else MQTT_OTA_BUFFSIZE) = 1024
    rw [if_neg ?hc]
    · rfl
    case hc =>
      intro hcontr
      have := hcontr.2
      rw [MQTT_OTA_MAX_CHUNK_SIZE] at this
      omega
  · intro h
    subst h
    rfl

/-- Witness for C9 at a concrete input: a request of 2048 is stored, a
request of 100000 resets to 1024. -/
theorem C9_setChunkSize_amended_witness :
    (setChunkSize initialDevice 2048).chunkSize = 2048 ∧
    (setChunkSize initialDevice 100000).chunkSize = 1024 :=
  ⟨(C9_setChunkSize_amended initialDevice 2048).2.1 (by decide) (by decide),
   (C9_setChunkSize_amended initialDevice 100000).2.2.1 (by decide)⟩

end Claims

end MQTTOTA
